import Mathlib

/-!
# CBSD_Project: broker dispatch-and-voting engine and worker session

Shallow embedding of `src/src/broker/broker_class.cpp` and
`src/src/server/server_class.cpp`.

Conventions of the embedding.

* Machine integers are `Nat` / `Int` with an explicit reduction where a
  conversion or an overflow can change the value.
* A function that reads outside a vector, or reinterprets a frame that does not
  hold the record it is cast to, has undefined behaviour: the embedding returns
  `none` there.
* The sockets, the service database and the clock are collaborators outside the
  two source files.  What the code sends and which database methods it calls is
  recorded, in program order, as a list of effects; what the database and the
  clock return is an input of the embedded function.
* A local variable that the source reads before assigning it is an input of the
  embedded function (its indeterminate initial content).
-/

namespace CBSD

/-! ## Machine integers -/

/-- Conversion of a C `int` to `uint8_t` (reduction modulo 2^8). -/
def to_uint8 (i : Int) : Nat := (i % 2 ^ 8).toNat

/-- Value of the four bytes `b0 b1 b2 b3` read as a 32-bit number whose first
byte in memory is the most significant one (network byte order). -/
def be32 (b0 b1 b2 b3 : Nat) : Nat := b0 * 2 ^ 24 + b1 * 2 ^ 16 + b2 * 2 ^ 8 + b3

/-- The function `htonl` on a little-endian host: the four bytes of the 32-bit
argument are reversed. -/
def htonl (x : Nat) : Nat :=
  be32 (x % 2 ^ 8) (x / 2 ^ 8 % 2 ^ 8) (x / 2 ^ 16 % 2 ^ 8) (x / 2 ^ 24 % 2 ^ 8)

/-- The function `ntohl` on a little-endian host: the same byte reversal. -/
def ntohl (x : Nat) : Nat := htonl x

/-! ## Wire records (types.hpp, service.hpp, rs_api.hpp) -/

/-- The service tag `service_type_t`. -/
abbrev service_type_t := Nat

/-- A `struct timespec`, as a number of milliseconds of the monotonic clock. -/
abbrev timespec := Nat

/-- The `service_status` field of a response. -/
inductive service_status_t where
  | SERVICE_AVAILABLE
  | SERVICE_NOT_AVAILABLE
  deriving DecidableEq, Repr

/-- The record `request_module` (client to broker). -/
structure request_module where
  service : service_type_t
  parameter : Int
  deriving DecidableEq, Repr

/-- The record `response_module` (broker to client). -/
structure response_module where
  service_status : service_status_t
  result : Int
  deriving DecidableEq, Repr

/-- The record `service_module` (broker to replica), with the fields the two
source files use: `heartbeat`, `seq_id` and the parameter payload. -/
structure service_module where
  heartbeat : Bool
  seq_id : Nat
  parameter : Int
  deriving DecidableEq, Repr

/-- The record `server_reply_t` (replica to broker). -/
structure server_reply_t where
  id : Int
  heartbeat : Bool
  duplicated : Bool
  service : service_type_t
  result : Int
  deriving DecidableEq, Repr

/-- The record `registration_module` of rs_api.hpp. -/
structure registration_module where
  signature : List Nat
  service : service_type_t
  deriving DecidableEq, Repr

/-- The record `request_record_t`; `get_request` assigns its `client_id`. -/
structure request_record_t where
  client_id : Nat
  deriving DecidableEq, Repr

/-! ## Frames, sockets and effects -/

/-- A frame `zmq::message_t`: raw bytes (identity and delimiter frames) or one
of the flat records a data frame carries. -/
inductive message_t where
  | raw (bytes : List Nat)
  | request (m : request_module)
  | response (m : response_module)
  | service (m : service_module)
  | reply (m : server_reply_t)
  | registration (m : registration_module)
  | port (p : Nat)
  deriving DecidableEq, Repr

/-- Number of frames of the vector `buffer_in`. -/
def NUM_FRAMES : Nat := 3
/-- Number of frames received per envelope. -/
def ENVELOPE : Nat := 3
/-- Index of the identity frame. -/
def ID_FRAME : Nat := 0
/-- Index of the delimiter frame. -/
def EMPTY_FRAME : Nat := 1
/-- Index of the data frame. -/
def DATA_FRAME : Nat := 2
/-- Index in the poll set of the first dealer socket (broker_class.hpp). -/
def DEALER_POLL_INDEX : Nat := 3

/-- The cast `*(static_cast<request_module*>(frame.data()))`. -/
def as_request : message_t → Option request_module
  | .request m => some m
  | _ => none

/-- The cast `*(static_cast<server_reply_t*>(frame.data()))`. -/
def as_server_reply : message_t → Option server_reply_t
  | .reply m => some m
  | _ => none

/-- The cast `*(static_cast<registration_module*>(message.data()))`. -/
def as_registration : message_t → Option registration_module
  | .registration m => some m
  | _ => none

/-- The client id: `p = frame.data(); p++; *((uint32_t *) p)`, the 32-bit number
stored at offset 1 of the identity frame, in host (little-endian) order. -/
def client_id_of : message_t → Option Nat
  | .raw (_ :: b1 :: b2 :: b3 :: b4 :: _) =>
      some (b1 + b2 * 2 ^ 8 + b3 * 2 ^ 16 + b4 * 2 ^ 24)
  | _ => none

/-- The sockets of the broker; a dealer socket is named by the port it is bound
to. -/
inductive socket_t where
  | router
  | reg
  | hc
  | dealer (port : Nat)
  deriving DecidableEq, Repr

/-- What the broker does to its collaborators, in program order: messages it
sends and methods of the service database it calls.  The helper
`send_multi_msg` of the missing communication file is recorded as one effect
per call, with the socket and the frames of the vector it is given; following
the spec ("send it N times") a call sends these frames as one envelope and
leaves the vector as it was. -/
inductive Effect where
  | send_multi_msg (skt : socket_t) (msg : List message_t)
  | send (skt : socket_t) (msg : message_t) (sndmore : Bool)
  | find_registration (service : service_type_t)
  | push_request (record : request_record_t) (service : service_type_t)
  | push_registration (rm : registration_module) (dealer_port : Nat)
  | push_result (reply : server_reply_t) (client_id : Nat)
  | get_result (service : service_type_t) (client_id : Nat)
  | delete_request (service : service_type_t) (client_id : Nat)
  | register_pong (id : Int) (service : service_type_t)
  deriving DecidableEq, Repr

/-- Modelled from the spec: the clock helper `time_add_ms` of the missing
utility file ("Clock: monotonic time, add-ms, compare"); the time advanced by
`ms` milliseconds. -/
def time_add_ms (t : timespec) (ms : Nat) : timespec := t + ms

/-- Modelled from the spec: the clock helper `time_cmp` of the missing utility
file; 1 when the first time is later than the second, 0 when they are equal,
-1 otherwise. -/
def time_cmp (a b : timespec) : Int :=
  if a > b then 1 else if a = b then 0 else -1

/-! ## The broker (broker_class.cpp) -/

/-- The data members of class `Broker` that the embedded methods read or write.
`items` is the poll set, `dealer` the vector of dispatch sockets, `timeout` the
vector of heartbeat deadlines. -/
structure Broker where
  nmr : Nat
  port_router : Nat
  port_reg : Nat
  available_dealer_port : Nat
  items : List socket_t
  dealer : List socket_t
  available_services : List service_type_t
  timeout : List timespec
  deriving DecidableEq, Repr

namespace Broker

/-- The constructor `Broker::Broker` (broker_class.cpp 22-62); the macro
`DEALER_START_PORT` is a parameter. -/
def ctor (DEALER_START_PORT : Nat) (nmr port_router port_reg : Nat) : Broker :=
  { nmr := nmr
    port_router := port_router
    port_reg := port_reg
    available_dealer_port := DEALER_START_PORT
    items := [socket_t.router, socket_t.reg, socket_t.hc]
    dealer := []
    available_services := []
    timeout := [] }

/-- The method `Broker::add_dealer` (broker_class.cpp 126-136). -/
def add_dealer (b : Broker) (dealer_port : Nat) : Broker :=
  { b with
    dealer := b.dealer ++ [socket_t.dealer dealer_port]
    items := b.items ++ [socket_t.dealer dealer_port] }

/-- The search loop of `Broker::update_timeout` (broker_class.cpp 418-420): the
first index holding `service`, or the size of the vector. -/
def service_index : List service_type_t → service_type_t → Nat
  | [], _ => 0
  | x :: xs, service => if x = service then 0 else service_index xs service + 1

/-- The method `Broker::update_timeout` (broker_class.cpp 413-425); `clock` is
what `clock_gettime` returns.  Writing `timeout[i]` outside the vector is
undefined. -/
def update_timeout (HEARTBEAT_INTERVAL : Nat) (b : Broker) (service : service_type_t)
    (clock : timespec) : Option Broker :=
  let i := service_index b.available_services service
  if i < b.timeout.length then
    some { b with timeout := b.timeout.set i (time_add_ms clock HEARTBEAT_INTERVAL) }
  else
    none

/-- The forwarding loop of `Broker::get_request` (broker_class.cpp 180-181):
`j` further iterations, each one call of `send_multi_msg`. -/
def forward (skt : socket_t) (buffer_in : List message_t) : Nat → List Effect
  | 0 => []
  | j + 1 => Effect.send_multi_msg skt buffer_in :: forward skt buffer_in j

/-- The element `dealer[ret]` for an `int32_t` index; outside the vector the
access is undefined. -/
def dealer_at (b : Broker) (ret : Int) : Option socket_t :=
  if 0 ≤ ret then b.dealer[ret.toNat]? else none

/-- The method `Broker::get_request` (broker_class.cpp 143-187).  `buffer_in`
holds the frames received by the loop, `response` and `sm` are the
indeterminate initial contents of the two locals, `ret` is what
`db->find_registration` returns and `clock` what `clock_gettime` returns. -/
def get_request (HEARTBEAT_INTERVAL : Nat) (b : Broker) (buffer_in : List message_t)
    (response : response_module) (sm : service_module) (ret : Int) (clock : timespec) :
    Option (Broker × List Effect) := do
  if buffer_in.length ≠ NUM_FRAMES then none
  let id_frame ← buffer_in[ID_FRAME]?
  let client_id ← client_id_of id_frame
  let request_record : request_record_t := { client_id := client_id }
  let data ← buffer_in[DATA_FRAME]?
  let request ← as_request data
  if ret = -1 then
    let response := { response with service_status := service_status_t.SERVICE_NOT_AVAILABLE }
    let buffer_in := buffer_in.set DATA_FRAME (message_t.response response)
    some (b, [Effect.find_registration request.service,
              Effect.send_multi_msg socket_t.router buffer_in])
  else do
    let sm := { sm with heartbeat := false, parameter := request.parameter }
    let buffer_in := buffer_in.set DATA_FRAME (message_t.service sm)
    let skt ← dealer_at b ret
    let sent := forward skt buffer_in b.nmr
    let b ← update_timeout HEARTBEAT_INTERVAL b request.service clock
    some (b, [Effect.find_registration request.service] ++ sent ++
              [Effect.push_request request_record request.service])

/-- What one iteration of the receive loop of `Broker::get_registration` gets
from its collaborators: the frame and the `ZMQ_RCVMORE` flag, and, used only
when the frame is the registration module, what `db->push_registration` returns
(`db_ret`) and leaves in its reference arguments `ready` and
`available_dealer_port`, and what `clock_gettime` returns. -/
structure recv_t where
  message : message_t
  more : Int
  db_ret : Nat
  db_ready : Bool
  db_port : Nat
  clock : timespec
  deriving DecidableEq, Repr

/-- The locals `already_registered` and `ready` of `Broker::get_registration`. -/
structure reg_locals where
  already_registered : Bool
  ready : Bool
  deriving DecidableEq, Repr

/-- The scan of `available_services` in `Broker::get_registration`
(broker_class.cpp 221-223). -/
def scan_registered (services : List service_type_t) (service : service_type_t)
    (already_registered : Bool) : Bool :=
  services.foldl (fun acc x => if x = service then true else acc) already_registered

/-- The body of the receive loop of `Broker::get_registration`
(broker_class.cpp 201-243) for one frame. -/
def registration_frame (HEARTBEAT_INTERVAL : Nat)
    (acc : Broker × reg_locals × List Effect) (f : recv_t) :
    Option (Broker × reg_locals × List Effect) := do
  let (b, l, out) := acc
  let out := if f.more = 1 then out ++ [Effect.send socket_t.reg f.message true] else out
  if f.more = 0 then
    let rm ← as_registration f.message
    let out := out ++ [Effect.push_registration rm b.available_dealer_port]
    let ret := f.db_ret
    let b := { b with available_dealer_port := f.db_port }
    let l := { l with ready := f.db_ready }
    let l := { l with
      already_registered := scan_registered b.available_services rm.service l.already_registered }
    let b :=
      if l.ready && !l.already_registered then
        let b := { b with available_services := b.available_services ++ [rm.service] }
        let b := add_dealer b ret
        { b with timeout := b.timeout ++ [time_add_ms f.clock HEARTBEAT_INTERVAL] }
      else b
    some (b, l, out ++ [Effect.send socket_t.reg (message_t.port ret) false])
  else
    some (b, l, out)

/-- The loop of `Broker::get_registration` over the received frames. -/
def registration_loop (HEARTBEAT_INTERVAL : Nat) :
    Broker × reg_locals × List Effect → List recv_t →
    Option (Broker × reg_locals × List Effect)
  | acc, [] => some acc
  | acc, f :: fs =>
    match registration_frame HEARTBEAT_INTERVAL acc f with
    | some acc1 => registration_loop HEARTBEAT_INTERVAL acc1 fs
    | none => none

/-- The method `Broker::get_registration` (broker_class.cpp 193-246).  `frames`
are the frames returned by the `ENVELOPE` calls of `reg->recv`, in order. -/
def get_registration (HEARTBEAT_INTERVAL : Nat) (b : Broker) (frames : List recv_t) :
    Option (Broker × List Effect) :=
  if frames.length ≠ ENVELOPE then none
  else
    match registration_loop HEARTBEAT_INTERVAL
        (b, { already_registered := false, ready := false }, []) frames with
    | some (b1, _, out) => some (b1, out)
    | none => none

/-- The method `Broker::vote` (broker_class.cpp 312-324).  `values` is the
vector passed by value, `result` the content of the by-reference parameter on
entry.  The value is the returned `uint8_t` status together with the content of
`result` on return.  The operands are read in the order of the C expression, so
`values[2]` is read only when `values[0] == values[1]` fails. -/
def vote (values : List Int) (result : Int) : Option (Nat × Int) := do
  let v0 ← values[0]?
  let v1 ← values[1]?
  if v0 = v1 then
    some (0, v0)
  else do
    let v2 ← values[2]?
    if v0 = v2 then
      some (0, v0)
    else if v1 = v2 then
      some (0, v1)
    else
      some (to_uint8 (-1), result)

/-- The vote-and-reply step of `Broker::get_response` (broker_class.cpp
287-301), taken when `num_copies == nmr`.  `values` is what `db->get_result`
returns, `result` the indeterminate initial content of the local `result`. -/
def vote_and_reply (buffer_in : List message_t) (server_reply : server_reply_t)
    (client_id : Nat) (result : Int) (response : response_module) (values : List Int) :
    Option (List Effect) := do
  let (status, result) ← vote values result
  let ret : Int := (status : Int)
  let sent :=
    if ret ≥ 0 then
      let response := { response with
        service_status := service_status_t.SERVICE_AVAILABLE, result := result }
      [Effect.send_multi_msg socket_t.router
        (buffer_in.set DATA_FRAME (message_t.response response))]
    else []
  some ([Effect.get_result server_reply.service client_id] ++ sent ++
        [Effect.delete_request server_reply.service client_id])

/-- The method `Broker::get_response` (broker_class.cpp 256-304).  `buffer_in`
holds the frames received from `dealer[dealer_index]`, `result` and `response`
are the indeterminate initial contents of the locals, `num_copies` is what
`db->push_result` returns and `values` what `db->get_result` returns. -/
def get_response (b : Broker) (dealer_index : Nat) (buffer_in : List message_t)
    (result : Int) (response : response_module) (num_copies : Int) (values : List Int) :
    Option (List Effect) := do
  let _skt ← b.dealer[dealer_index]?
  if buffer_in.length ≠ NUM_FRAMES then none
  let id_frame ← buffer_in[ID_FRAME]?
  let client_id ← client_id_of id_frame
  let data ← buffer_in[DATA_FRAME]?
  let server_reply ← as_server_reply data
  if server_reply.id ≥ 0 then
    some [Effect.register_pong server_reply.id server_reply.service]
  else if num_copies = (b.nmr : Int) then do
    let out ← vote_and_reply buffer_in server_reply client_id result response values
    some ([Effect.push_result server_reply client_id] ++ out)
  else
    some [Effect.push_result server_reply client_id]

/-- The dispatch sockets held for `service`: the entries of `dealer` at the
indices where `available_services` holds `service`. -/
def dispatch_channels (b : Broker) (service : service_type_t) : List socket_t :=
  ((b.available_services.zip b.dealer).filter (fun p => decide (p.1 = service))).map Prod.snd

/-- The index alignment of the broker's vectors: no service is listed twice,
`dealer` and `timeout` are as long as `available_services`, and the poll set
holds the three fixed sockets followed by one item per dealer. -/
def aligned (b : Broker) : Prop :=
  b.available_services.Nodup ∧ b.dealer.length = b.available_services.length ∧
    b.timeout.length = b.available_services.length ∧
    b.items.length = DEALER_POLL_INDEX + b.available_services.length

instance (b : Broker) : Decidable (aligned b) := by
  unfold aligned
  infer_instance

/-- A sequence of calls of `Broker::get_registration`, one per element of the
list. -/
def registrations (HEARTBEAT_INTERVAL : Nat) : Broker → List (List recv_t) → Option Broker
  | b, [] => some b
  | b, frames :: rest =>
    match get_registration HEARTBEAT_INTERVAL b frames with
    | some (b1, _) => registrations HEARTBEAT_INTERVAL b1 rest
    | none => none

/-- The registration carried by a well-formed envelope (two routing frames
followed by the final data frame, a registration module), with the readiness
flag the database reports for it. -/
def envelope_registration : List recv_t → Option (registration_module × Bool)
  | [f0, f1, f2] =>
    if f0.more = 1 ∧ f1.more = 1 ∧ f2.more = 0 then
      match f2.message with
      | message_t.registration rm => some (rm, f2.db_ready)
      | _ => none
    else none
  | _ => none

/-- The majority threshold in the words of the spec, the ceiling of
(N + 1) / 2; it is not computed anywhere in the source and serves only to
state the spec's generalisation of the vote to N > 3. -/
def spec_majority_threshold (N : Nat) : Nat := (N + 2) / 2

/-- The frames a call of `Broker::get_registration` can digest without a wrong
cast: `ENVELOPE` frames, each final frame (`more` = 0) holding a registration
module. -/
def decodable (frames : List recv_t) : Prop :=
  frames.length = ENVELOPE ∧
    ∀ f ∈ frames, f.more = 0 → (as_registration f.message).isSome = true

instance (frames : List recv_t) : Decidable (decodable frames) := by
  unfold decodable
  infer_instance

/-- What the dealer and heartbeat loops of `Broker::step` do to their
collaborators, in program order: the calls of `get_response`, the methods of
the service database called by the loop and by `ping_server`, and the sends of
`ping_server`. -/
inductive step_effect where
  | get_response (dealer_index : Nat)
  | check_pong (service : service_type_t)
  | get_ping_id (service : service_type_t)
  | get_reliable_copies (service : service_type_t)
  | broker (e : Effect)
  deriving DecidableEq, Repr

/-- What one iteration of the heartbeat loop of `Broker::step` gets from its
collaborators: what `db->get_ping_id` and `db->get_reliable_copies` return,
what `clock_gettime` returns in `update_timeout`, and the indeterminate initial
content of the local `sm` of `ping_server`. -/
structure ping_env where
  ping_id : Nat
  reliable_copies : Nat
  clock : timespec
  sm : service_module
  deriving DecidableEq, Repr

/-- The sending loop of `Broker::ping_server` (broker_class.cpp 383-387): `j`
further iterations, each reading `dealer[i]`. -/
def ping_forward (b : Broker) (i : Nat) (buffer_in : List message_t) :
    Nat → Option (List Effect)
  | 0 => some []
  | j + 1 => do
    let skt ← b.dealer[i]?
    let rest ← ping_forward b i buffer_in j
    some (Effect.send_multi_msg skt buffer_in :: rest)

/-- The method `Broker::ping_server` (broker_class.cpp 363-388); the macro
`LENGTH_ID_FRAME` is a parameter and 97 is the character 'a'. -/
def ping_server (LENGTH_ID_FRAME : Nat) (b : Broker) (i : Nat) (service : service_type_t)
    (env : ping_env) : Option (List step_effect) := do
  let address_ping := 0 :: List.replicate (LENGTH_ID_FRAME - 1) 97
  let sm := { env.sm with heartbeat := true, seq_id := env.ping_id }
  let buffer_in := [message_t.raw address_ping, message_t.raw [], message_t.service sm]
  let listed ← b.available_services[i]?
  let sent ← ping_forward b i buffer_in env.reliable_copies
  some ([step_effect.get_ping_id service, step_effect.get_reliable_copies listed] ++
        sent.map step_effect.broker)

/-- The dealer loop of `Broker::step` (broker_class.cpp 104-107), `n` further
iterations from index `i`; `pollin k` tells whether the poll item at index `k`
has `ZMQ_POLLIN` set. -/
def dealer_from (b : Broker) (pollin : Nat → Bool) : Nat → Nat → Option (List step_effect)
  | 0, _ => some []
  | n + 1, i => do
    let _item ← b.items[i + DEALER_POLL_INDEX]?
    let out ← dealer_from b pollin n (i + 1)
    if pollin (i + DEALER_POLL_INDEX) then some (step_effect.get_response i :: out)
    else some out

/-- The dealer loop of `Broker::step`, from index 0 up to `dealer.size()`. -/
def dealer_loop (b : Broker) (pollin : Nat → Bool) : Option (List step_effect) :=
  dealer_from b pollin b.dealer.length 0

/-- The heartbeat loop of `Broker::step` (broker_class.cpp 109-116), `n`
further iterations from index `i`; `now` is the member read at the top of the
iteration of `step`.  The first argument of `ping_server` is a `uint8_t`. -/
def heartbeat_from (HEARTBEAT_INTERVAL LENGTH_ID_FRAME : Nat) (now : timespec)
    (env : Nat → ping_env) : Nat → Nat → Broker → Option (Broker × List step_effect)
  | 0, _, b => some (b, [])
  | n + 1, i, b => do
    let t ← b.timeout[i]?
    if time_cmp now t = 1 then
      let service ← b.available_services[i]?
      let sent ← ping_server LENGTH_ID_FRAME b (i % 2 ^ 8) service (env i)
      let b1 ← update_timeout HEARTBEAT_INTERVAL b service (env i).clock
      let (b2, out) ← heartbeat_from HEARTBEAT_INTERVAL LENGTH_ID_FRAME now env n (i + 1) b1
      some (b2, [step_effect.check_pong service] ++ sent ++ out)
    else
      heartbeat_from HEARTBEAT_INTERVAL LENGTH_ID_FRAME now env n (i + 1) b

/-- The heartbeat loop of `Broker::step`, from index 0 up to `timeout.size()`. -/
def heartbeat_loop (HEARTBEAT_INTERVAL LENGTH_ID_FRAME : Nat) (now : timespec)
    (env : Nat → ping_env) (b : Broker) : Option (Broker × List step_effect) :=
  heartbeat_from HEARTBEAT_INTERVAL LENGTH_ID_FRAME now env b.timeout.length 0 b

end Broker

/-! ## The worker (server_class.cpp) -/

/-- The sockets of the worker's poll set: the health-pong socket and the reply
socket connected to the dispatch port. -/
inductive server_socket where
  | hc_pong
  | reply (broker_port : Int)
  deriving DecidableEq, Repr

/-- What the worker's main loop does to its collaborators, in program order. -/
inductive server_effect where
  | reply_send (msg : server_reply_t)
  | hc_pong_send
  | create_thread (parameters : Int)
  | registration
  deriving DecidableEq, Repr

/-- The macros of the missing headers used by `RSF_Server::step`, and the width
in bits of the data members `ping_id` and `request_id`, whose declaration is
missing as well. -/
structure server_const where
  HEARTBEAT_INTERVAL : Nat
  WCDPING : Nat
  LIVENESS : Int
  counter_bits : Nat
  deriving DecidableEq, Repr

/-- The data members of class `RSF_Server` used by `step`, followed by the
locals of `step` that live across iterations of its loop (`val`, `ping_loss`,
`time_t`, `reg_ok`, `server_reply`). -/
structure RSF_Server where
  id : Nat
  service_type : service_type_t
  ping_id : Nat
  request_id : Nat
  broker_port : Int
  items : List server_socket
  val : Int
  ping_loss : Int
  time_t : timespec
  reg_ok : Bool
  server_reply : server_reply_t
  deriving DecidableEq, Repr

/-- What one iteration of the loop of `RSF_Server::step` gets from its
collaborators: the clock at the top of the iteration, the message waiting on
the reply socket (if the poll reports one) and the clock read after receiving
it, whether the health checker pinged, what `registrator->registration()`
returns and the clock read after it, the clock read in the timeout branch, and
the indeterminate initial content of the local of `pong_broker`. -/
structure poll_t where
  tmp_t : timespec
  request : Option service_module
  request_clock : timespec
  hc_ping : Bool
  registration : Int
  registration_clock : timespec
  timeout_clock : timespec
  pong : server_reply_t
  deriving DecidableEq, Repr

namespace RSF_Server

/-- The constructor `RSF_Server::RSF_Server` (server_class.cpp 29-63) followed
by the initialisation of the locals of `step` (server_class.cpp 83-93); the
contents of the locals that `step` does not initialise are parameters. -/
def ctor (id service_type : Nat) (val : Int) (time_t : timespec)
    (server_reply : server_reply_t) (broker_port : Int) : RSF_Server :=
  { id := id
    service_type := service_type
    ping_id := 0
    request_id := 0
    broker_port := broker_port
    items := [server_socket.hc_pong]
    val := val
    ping_loss := 0
    time_t := time_t
    reg_ok := false
    server_reply := server_reply }

/-- The method `RSF_Server::receive_request` (server_class.cpp 209-226): the
returned heartbeat flag, the content of `val` and the content of
`received_id` on return. -/
def receive_request (sm : service_module) (val : Int) : Bool × Int × Nat :=
  (sm.heartbeat, (if sm.heartbeat = false then sm.parameter else val), ntohl sm.seq_id)

/-- The method `RSF_Server::pong_broker` (server_class.cpp 233-244);
`server_reply` is the indeterminate initial content of its local. -/
def pong_broker (s : RSF_Server) (server_reply : server_reply_t) : server_effect :=
  server_effect.reply_send
    { server_reply with
      id := (s.id : Int), service := htonl s.service_type, heartbeat := true }

/-- The branch of `RSF_Server::step` that serves the reply socket
(server_class.cpp 102-143). -/
def service_request (c : server_const) (s : RSF_Server) (sm : service_module)
    (request_clock : timespec) (pong : server_reply_t) :
    RSF_Server × List server_effect :=
  let (heartbeat, val, received_id) := receive_request sm s.val
  let s := { s with
    val := val
    time_t := time_add_ms request_clock (c.HEARTBEAT_INTERVAL + c.WCDPING) }
  if !heartbeat then
    let s :=
      if s.request_id = 0 then { s with request_id := received_id % 2 ^ c.counter_bits }
      else s
    if received_id = s.request_id then
      ({ s with request_id := (s.request_id + 1) % 2 ^ c.counter_bits },
        [server_effect.create_thread s.val])
    else
      let server_reply := { s.server_reply with
        id := (s.id : Int), heartbeat := false,
        service := htonl s.service_type, duplicated := true }
      ({ s with server_reply := server_reply }, [server_effect.reply_send server_reply])
  else
    let s :=
      if s.ping_id = 0 then { s with ping_id := received_id % 2 ^ c.counter_bits }
      else s
    let s :=
      if received_id = s.ping_id then { s with ping_id := (s.ping_id + 1) % 2 ^ c.counter_bits }
      else s
    (s, [pong_broker s pong])

/-- The registration branch of `RSF_Server::step` (server_class.cpp 152-183);
`none` when the process calls `exit(EXIT_FAILURE)`. -/
def register (c : server_const) (s : RSF_Server) (p : poll_t) : Option RSF_Server :=
  let s := { s with broker_port := p.registration }
  if s.broker_port > 0 ∧ s.broker_port ≤ 65535 then
    some { s with
      items := s.items ++ [server_socket.reply s.broker_port]
      reg_ok := true
      ping_loss := 0
      time_t := time_add_ms p.registration_clock (c.HEARTBEAT_INTERVAL + c.WCDPING) }
  else if s.broker_port = 0 then
    none
  else
    some s

/-- The timeout branch of `RSF_Server::step` (server_class.cpp 185-196). -/
def ping_timeout (c : server_const) (s : RSF_Server) (p : poll_t) : RSF_Server :=
  if time_cmp p.tmp_t s.time_t = 1 ∧ s.reg_ok = true then
    let s := { s with
      time_t := time_add_ms p.timeout_clock (c.HEARTBEAT_INTERVAL + c.WCDPING)
      ping_loss := s.ping_loss + 1 }
    if s.ping_loss = c.LIVENESS then
      { s with items := s.items.dropLast, reg_ok := false }
    else s
  else s

/-- One iteration of the loop of `RSF_Server::step` (server_class.cpp 96-196):
the state at the end of the iteration (`none` when the process exited) and the
effects of the iteration. -/
def step (c : server_const) (s : RSF_Server) (p : poll_t) :
    Option RSF_Server × List server_effect :=
  let (s1, out1) :=
    match s.reg_ok, p.request with
    | true, some sm => service_request c s sm p.request_clock p.pong
    | _, _ => (s, [])
  let out2 := if p.hc_ping then [server_effect.hc_pong_send] else []
  if !s1.reg_ok then
    match register c s1 p with
    | some s3 => (some (ping_timeout c s3 p), out1 ++ out2 ++ [server_effect.registration])
    | none => (none, out1 ++ out2 ++ [server_effect.registration])
  else
    (some (ping_timeout c s1 p), out1 ++ out2)

/-- Successive iterations of the loop of `RSF_Server::step`, one per element of
the list; the loop stops when the process exits. -/
def run (c : server_const) : RSF_Server → List poll_t → Option RSF_Server × List server_effect
  | s, [] => (some s, [])
  | s, p :: ps =>
    match step c s p with
    | (some s1, out) =>
      let (r, out1) := run c s1 ps
      (r, out ++ out1)
    | (none, out) => (none, out)

/-- The messages sent on the reply socket among the effects. -/
def reply_sends : List server_effect → List server_reply_t
  | [] => []
  | server_effect.reply_send m :: es => m :: reply_sends es
  | _ :: es => reply_sends es

/-- The tasks spawned among the effects (the parameters given to
`create_thread`). -/
def spawned : List server_effect → List Int
  | [] => []
  | server_effect.create_thread v :: es => v :: spawned es
  | _ :: es => spawned es

/-- A poll in which a heartbeat with sequence number `seq` (sent in network
byte order) waits on the reply socket, the clock read after receiving it being
`d` milliseconds later than the clock read at the top of the iteration. -/
def heartbeat_poll (p : poll_t) (seq d : Nat) : poll_t :=
  { p with
    request := some { heartbeat := true, seq_id := htonl seq, parameter := 0 }
    request_clock := p.tmp_t + d }

/-- The message the main loop sends for a request it takes as a duplicate
(server_class.cpp 118-128): the local `server_reply` with the four fields the
branch assigns. -/
def duplicated_reply (s : RSF_Server) : server_reply_t :=
  { s.server_reply with
    id := (s.id : Int), heartbeat := false,
    service := htonl s.service_type, duplicated := true }

end RSF_Server

/-! ## Theorems -/

/-- The outcome of `Broker::vote` on a vector of three values. -/
theorem vote_three (x y z result : Int) :
    Broker.vote [x, y, z] result =
      (if x = y ∨ x = z then some (0, x)
       else if y = z then some (0, y)
       else some (255, result)) := by
  by_cases h1 : x = y
  · simp [Broker.vote, h1]
  · by_cases h2 : x = z
    · simp [Broker.vote, h1, h2]
    · by_cases h3 : y = z
      · simp [Broker.vote, h1, h2, h3]
      · simp [Broker.vote, h1, h2, h3, to_uint8]

/-- C1: with three replica results a, b, c, `Broker::vote` returns status 0 and
result a when a = b or a = c, otherwise status 0 and result b when b = c, and
otherwise the failure status 255 (the `uint8_t` value of -1, different from the
success status 0) with `result` left as it was; no other outcome exists. -/
theorem C1_vote_triple (a b c result : Int) :
    Broker.vote [a, b, c] result =
      (if a = b ∨ a = c then some (0, a)
       else if b = c then some (0, b)
       else some (255, result))
    ∧ (255 : Nat) ≠ 0 := by
  exact ⟨vote_three a b c result, by decide⟩

/-- The forwarding loop sends `n` copies of the same envelope. -/
theorem forward_eq_replicate (skt : socket_t) (buffer_in : List message_t) (n : Nat) :
    Broker.forward skt buffer_in n =
      List.replicate n (Effect.send_multi_msg skt buffer_in) := by
  induction n with
  | zero => rfl
  | succ k ih => simp [Broker.forward, ih, List.replicate_succ]

/-- The rearrangements of a list of three elements. -/
theorem perm_three {α : Type} (a b c : α) (l : List α) (h : l.Perm [a, b, c]) :
    l = [a, b, c] ∨ l = [a, c, b] ∨ l = [b, a, c] ∨ l = [b, c, a] ∨
      l = [c, a, b] ∨ l = [c, b, a] := by
  have hm : l ∈ List.permutations [a, b, c] := List.mem_permutations.mpr h
  have he : List.permutations [a, b, c] =
      [[a, b, c], [b, a, c], [c, b, a], [b, c, a], [c, a, b], [a, c, b]] := by
    simp [List.permutations, List.permutationsAux, List.permutationsAux.rec,
      List.permutationsAux2]
  rw [he] at hm
  simp only [List.mem_cons, List.mem_singleton, List.not_mem_nil, or_false] at hm
  tauto

/-- C10: `Broker::vote` gives the same status and the same content of `result`
on every rearrangement of a triple of replica results. -/
theorem C10_vote_order_independent (a b c result : Int) (l : List Int)
    (h : l.Perm [a, b, c]) :
    Broker.vote l result = Broker.vote [a, b, c] result := by
  have hab : (b = a) = (a = b) := propext eq_comm
  have hac : (c = a) = (a = c) := propext eq_comm
  have hbc : (c = b) = (b = c) := propext eq_comm
  rcases perm_three a b c l h with h | h | h | h | h | h <;> subst h <;>
    simp only [vote_three, hab, hac, hbc] <;>
    by_cases h1 : a = b <;> by_cases h2 : a = c <;> by_cases h3 : b = c <;>
    simp [h1, h2, h3] <;> simp_all

/-- C10 at the rearrangement [2, 1, 1] of [1, 2, 1]. -/
theorem C10_vote_order_independent_witness :
    List.Perm [2, 1, 1] [1, 2, 1] ∧
      Broker.vote [2, 1, 1] 0 = Broker.vote [1, 2, 1] 0 :=
  ⟨by decide, C10_vote_order_independent 1 2 1 0 [2, 1, 1] (by decide)⟩

/-- C2: at the pairwise-distinct results 1, 2, 3 `Broker::vote` returns the
status 255, which passes the test `ret >= 0` of `Broker::get_response`; the
vote-and-reply step therefore sends a response with status SERVICE_AVAILABLE
and the unassigned content of `result` to the client, both taken alone and
inside `Broker::get_response` (redundancy 3, third result of the request). -/
theorem C2_no_majority_reply_is_sent (result : Int) (response : response_module) :
    Broker.vote [1, 2, 3] result = some (255, result)
    ∧ Broker.vote_and_reply
        [message_t.raw [0, 9, 0, 0, 0], message_t.raw [],
         message_t.reply ⟨-1, false, false, 7, 3⟩]
        ⟨-1, false, false, 7, 3⟩ 9 result response [1, 2, 3]
      = some [Effect.get_result 7 9,
          Effect.send_multi_msg socket_t.router
            [message_t.raw [0, 9, 0, 0, 0], message_t.raw [],
             message_t.response ⟨service_status_t.SERVICE_AVAILABLE, result⟩],
          Effect.delete_request 7 9]
    ∧ Broker.get_response
        (Broker.add_dealer (Broker.ctor 6000 3 5000 5001) 6000) 0
        [message_t.raw [0, 9, 0, 0, 0], message_t.raw [],
         message_t.reply ⟨-1, false, false, 7, 3⟩]
        result response 3 [1, 2, 3]
      = some [Effect.push_result ⟨-1, false, false, 7, 3⟩ 9,
          Effect.get_result 7 9,
          Effect.send_multi_msg socket_t.router
            [message_t.raw [0, 9, 0, 0, 0], message_t.raw [],
             message_t.response ⟨service_status_t.SERVICE_AVAILABLE, result⟩],
          Effect.delete_request 7 9] := by
  refine ⟨?_, ?_, ?_⟩
  · simp [Broker.vote, to_uint8]
  · simp [Broker.vote_and_reply, Broker.vote, to_uint8, DATA_FRAME]
  · simp [Broker.get_response, Broker.vote_and_reply, Broker.vote, to_uint8, DATA_FRAME,
      ID_FRAME, NUM_FRAMES, Broker.add_dealer, Broker.ctor, client_id_of, as_server_reply]

/-- C3: a service result of replica 0 (heartbeat flag false, result 42) is
recorded by `Broker::get_response` as a pong and is not appended to any
accumulator: the branch is chosen by the test `server_reply.id >= 0`, whatever
the heartbeat flag. -/
theorem C3_result_recorded_as_pong (heartbeat : Bool) (result : Int)
    (response : response_module) (num_copies : Int) (values : List Int) :
    Broker.get_response
        (Broker.add_dealer (Broker.ctor 6000 3 5000 5001) 6000) 0
        [message_t.raw [0, 9, 0, 0, 0], message_t.raw [],
         message_t.reply ⟨0, heartbeat, false, 7, 42⟩]
        result response num_copies values
      = some [Effect.register_pong 0 7] := by
  simp [Broker.get_response, DATA_FRAME, ID_FRAME, NUM_FRAMES, Broker.add_dealer,
    Broker.ctor, client_id_of, as_server_reply]

/-- C4, as stated, fails: when the local `response` happens to hold 7 in its
`result` field, the reply to a request for the unknown service 99 carries
result 7, so no frame `ResponseModule{NOT_AVAILABLE, 0}` is sent. -/
theorem C4_counterexample :
    ∃ b out,
      Broker.get_request 1000 (Broker.ctor 6000 3 5000 5001)
        [message_t.raw [0, 9, 0, 0, 0], message_t.raw [], message_t.request ⟨99, 5⟩]
        ⟨service_status_t.SERVICE_AVAILABLE, 7⟩ ⟨false, 0, 0⟩ (-1) 0 = some (b, out)
      ∧ ¬ ∃ skt frames, Effect.send_multi_msg skt frames ∈ out ∧
          frames[DATA_FRAME]? = some (message_t.response
            ⟨service_status_t.SERVICE_NOT_AVAILABLE, 0⟩) := by
  refine ⟨Broker.ctor 6000 3 5000 5001,
    [Effect.find_registration 99,
     Effect.send_multi_msg socket_t.router
       [message_t.raw [0, 9, 0, 0, 0], message_t.raw [],
        message_t.response ⟨service_status_t.SERVICE_NOT_AVAILABLE, 7⟩]], ?_, ?_⟩
  · simp [Broker.get_request, DATA_FRAME, ID_FRAME, NUM_FRAMES, client_id_of, as_request]
  · rintro ⟨skt, frames, hmem, hdata⟩
    simp only [List.mem_cons, List.mem_singleton, List.not_mem_nil, or_false] at hmem
    rcases hmem with hmem | hmem
    · cases hmem
    · cases hmem
      simp [DATA_FRAME] at hdata

/-- C4 (amended): when `db->find_registration` returns -1, `Broker::get_request`
leaves the broker as it was and does exactly this: it looks the service up and
sends one envelope on the request channel, with the identity and delimiter
frames of the request and the data frame `response_module` whose status is
SERVICE_NOT_AVAILABLE and whose `result` field is the content the local
`response` had on entry (never assigned).  Nothing is sent on a dispatch
channel and no request is recorded. -/
theorem C4_not_available_reply (HEARTBEAT_INTERVAL : Nat) (b : Broker)
    (b0 b1 b2 b3 b4 : Nat) (rest : List Nat) (empty : message_t)
    (request : request_module) (response : response_module) (sm : service_module)
    (clock : timespec) :
    Broker.get_request HEARTBEAT_INTERVAL b
        [message_t.raw (b0 :: b1 :: b2 :: b3 :: b4 :: rest), empty,
         message_t.request request] response sm (-1) clock
      = some (b,
          [Effect.find_registration request.service,
           Effect.send_multi_msg socket_t.router
             [message_t.raw (b0 :: b1 :: b2 :: b3 :: b4 :: rest), empty,
              message_t.response
                ⟨service_status_t.SERVICE_NOT_AVAILABLE, response.result⟩]]) := by
  simp [Broker.get_request, DATA_FRAME, ID_FRAME, NUM_FRAMES, client_id_of, as_request]

/-- C5: for an admitted request (`db->find_registration` returns an index `ret`
other than -1 that names the dispatch socket `skt`, and the service has a
deadline slot), `Broker::get_request` does exactly this, in this order: the
lookup, then `nmr` sends on `skt` of the envelope with the client's identity
and delimiter frames and the data frame `service_module` with heartbeat false
and the request's parameter, then one `push_request` keyed by the client id
read from the identity frame.  Nothing is sent on the request channel; the
broker state changes only in the service's heartbeat deadline. -/
theorem C5_admitted_request_fan_out (HEARTBEAT_INTERVAL : Nat) (b : Broker)
    (b0 b1 b2 b3 b4 : Nat) (rest : List Nat) (empty : message_t)
    (request : request_module) (response : response_module) (sm : service_module)
    (ret : Int) (clock : timespec) (skt : socket_t)
    (hret : ret ≠ -1) (hskt : Broker.dealer_at b ret = some skt)
    (hslot : Broker.service_index b.available_services request.service < b.timeout.length) :
    Broker.get_request HEARTBEAT_INTERVAL b
        [message_t.raw (b0 :: b1 :: b2 :: b3 :: b4 :: rest), empty,
         message_t.request request] response sm ret clock
      = some
          ({ b with
              timeout := (b.timeout.set
                (Broker.service_index b.available_services request.service)
                (clock + HEARTBEAT_INTERVAL)) },
           [Effect.find_registration request.service] ++
           List.replicate b.nmr
             (Effect.send_multi_msg skt
               [message_t.raw (b0 :: b1 :: b2 :: b3 :: b4 :: rest), empty,
                message_t.service ⟨false, sm.seq_id, request.parameter⟩]) ++
           [Effect.push_request ⟨b1 + b2 * 2 ^ 8 + b3 * 2 ^ 16 + b4 * 2 ^ 24⟩
             request.service]) := by
  simp [Broker.get_request, DATA_FRAME, ID_FRAME, NUM_FRAMES, client_id_of, as_request,
    hret, hskt, Broker.update_timeout, hslot, forward_eq_replicate, time_add_ms]

/-- C5 at redundancy 3, service 7 on the first dispatch socket, parameter 5. -/
theorem C5_admitted_request_fan_out_witness :
    (0 : Int) ≠ -1
    ∧ Broker.get_request 1000
        ⟨3, 5000, 5001, 6001, [socket_t.router, socket_t.reg, socket_t.hc, socket_t.dealer 6000],
          [socket_t.dealer 6000], [7], [100]⟩
        [message_t.raw [0, 9, 0, 0, 0], message_t.raw [], message_t.request ⟨7, 5⟩]
        ⟨service_status_t.SERVICE_AVAILABLE, 0⟩ ⟨true, 0, 0⟩ 0 50
      = some
          (⟨3, 5000, 5001, 6001,
             [socket_t.router, socket_t.reg, socket_t.hc, socket_t.dealer 6000],
             [socket_t.dealer 6000], [7], [1050]⟩,
           [Effect.find_registration 7,
            Effect.send_multi_msg (socket_t.dealer 6000)
              [message_t.raw [0, 9, 0, 0, 0], message_t.raw [],
               message_t.service ⟨false, 0, 5⟩],
            Effect.send_multi_msg (socket_t.dealer 6000)
              [message_t.raw [0, 9, 0, 0, 0], message_t.raw [],
               message_t.service ⟨false, 0, 5⟩],
            Effect.send_multi_msg (socket_t.dealer 6000)
              [message_t.raw [0, 9, 0, 0, 0], message_t.raw [],
               message_t.service ⟨false, 0, 5⟩],
            Effect.push_request ⟨9⟩ 7]) :=
  ⟨by decide,
   C5_admitted_request_fan_out 1000
     ⟨3, 5000, 5001, 6001, [socket_t.router, socket_t.reg, socket_t.hc, socket_t.dealer 6000],
       [socket_t.dealer 6000], [7], [100]⟩
     0 9 0 0 0 [] (message_t.raw []) ⟨7, 5⟩ ⟨service_status_t.SERVICE_AVAILABLE, 0⟩
     ⟨true, 0, 0⟩ 0 50 (socket_t.dealer 6000) (by decide) (by decide) (by decide)⟩

/-- The decoded sequence number fits in 32 bits. -/
theorem ntohl_lt (x : Nat) : ntohl x < 2 ^ 32 := by
  unfold ntohl htonl be32
  have h0 : x % 2 ^ 8 < 2 ^ 8 := Nat.mod_lt _ (by norm_num)
  have h1 : x / 2 ^ 8 % 2 ^ 8 < 2 ^ 8 := Nat.mod_lt _ (by norm_num)
  have h2 : x / 2 ^ 16 % 2 ^ 8 < 2 ^ 8 := Nat.mod_lt _ (by norm_num)
  have h3 : x / 2 ^ 24 % 2 ^ 8 < 2 ^ 8 := Nat.mod_lt _ (by norm_num)
  omega

/-- A decoded sequence number is not changed by the assignment to a counter of
at least 32 bits. -/
theorem ntohl_mod (x w : Nat) (hw : 32 ≤ w) : ntohl x % 2 ^ w = ntohl x := by
  apply Nat.mod_eq_of_lt
  calc ntohl x < 2 ^ 32 := ntohl_lt x
    _ ≤ 2 ^ w := Nat.pow_le_pow_right (by norm_num) hw

/-- The reply-socket messages of a concatenation of effects. -/
theorem reply_sends_append (xs ys : List server_effect) :
    RSF_Server.reply_sends (xs ++ ys) =
      RSF_Server.reply_sends xs ++ RSF_Server.reply_sends ys := by
  induction xs with
  | nil => rfl
  | cons e es ih => cases e <;> simp [RSF_Server.reply_sends, ih]

/-- The spawned tasks of a concatenation of effects. -/
theorem spawned_append (xs ys : List server_effect) :
    RSF_Server.spawned (xs ++ ys) = RSF_Server.spawned xs ++ RSF_Server.spawned ys := by
  induction xs with
  | nil => rfl
  | cons e es ih => cases e <;> simp [RSF_Server.spawned, ih]

/-- The timeout branch leaves the two sequence counters alone. -/
theorem ping_timeout_counters (c : server_const) (s : RSF_Server) (p : poll_t) :
    (RSF_Server.ping_timeout c s p).ping_id = s.ping_id ∧
      (RSF_Server.ping_timeout c s p).request_id = s.request_id := by
  unfold RSF_Server.ping_timeout
  by_cases h : time_cmp p.tmp_t s.time_t = 1 ∧ s.reg_ok = true
  · by_cases h1 : s.ping_loss + 1 = c.LIVENESS <;> simp [h, h1]
  · simp [h]

/-- An iteration of a registered worker that finds a message on the reply
socket: the branch serving the socket runs, the registration branch does not. -/
theorem step_registered_request (c : server_const) (s : RSF_Server) (p : poll_t)
    (sm : service_module) (hreg : s.reg_ok = true) (hreq : p.request = some sm) :
    RSF_Server.step c s p =
      (some (RSF_Server.ping_timeout c
          (RSF_Server.service_request c s sm p.request_clock p.pong).1 p),
        (RSF_Server.service_request c s sm p.request_clock p.pong).2 ++
          (if p.hc_ping then [server_effect.hc_pong_send] else [])) := by
  have hk : (RSF_Server.service_request c s sm p.request_clock p.pong).1.reg_ok = true := by
    unfold RSF_Server.service_request RSF_Server.receive_request
    simp only
    split_ifs <;> simp [hreg]
  unfold RSF_Server.step
  simp only [hreg, hreq]
  rw [hk]
  simp

/-- The branch serving the reply socket, on a heartbeat, for counters of at
least 32 bits: the new state and the single pong. -/
theorem service_request_heartbeat (c : server_const) (s : RSF_Server) (sm : service_module)
    (clock : timespec) (pong : server_reply_t) (hw : 32 ≤ c.counter_bits)
    (hhb : sm.heartbeat = true) :
    RSF_Server.service_request c s sm clock pong =
      ({ s with
          time_t := clock + (c.HEARTBEAT_INTERVAL + c.WCDPING)
          ping_id :=
            (if ntohl sm.seq_id = (if s.ping_id = 0 then ntohl sm.seq_id else s.ping_id) then
              ((if s.ping_id = 0 then ntohl sm.seq_id else s.ping_id) + 1) % 2 ^ c.counter_bits
            else (if s.ping_id = 0 then ntohl sm.seq_id else s.ping_id)) },
        [server_effect.reply_send
          { pong with id := (s.id : Int), service := htonl s.service_type, heartbeat := true }]) := by
  unfold RSF_Server.service_request RSF_Server.receive_request RSF_Server.pong_broker
  simp only [hhb, time_add_ms]
  by_cases h0 : s.ping_id = 0
  · simp [h0, ntohl_mod _ _ hw]
  · by_cases h1 : ntohl sm.seq_id = s.ping_id
    · simp [h0, h1]
    · simp [h0, h1]

/-- The timeout branch does nothing in an iteration whose deadline was just
postponed past the clock read at the top of the iteration. -/
theorem ping_timeout_postponed (c : server_const) (s : RSF_Server) (p : poll_t) (d : Nat)
    (h : s.time_t = p.tmp_t + d) : RSF_Server.ping_timeout c s p = s := by
  unfold RSF_Server.ping_timeout time_cmp
  have h1 : ¬ p.tmp_t > s.time_t := by
    rw [h]
    exact Nat.not_lt.mpr (Nat.le_add_right p.tmp_t d)
  by_cases h2 : p.tmp_t = s.time_t <;> simp [h1, h2]

/-- An iteration of a registered worker on a heartbeat poll. -/
theorem step_heartbeat_poll (c : server_const) (s : RSF_Server) (p : poll_t) (seq d : Nat)
    (hw : 32 ≤ c.counter_bits) (hreg : s.reg_ok = true) :
    RSF_Server.step c s (RSF_Server.heartbeat_poll p seq d) =
      (some { s with
          time_t := p.tmp_t + d + (c.HEARTBEAT_INTERVAL + c.WCDPING)
          ping_id :=
            (if ntohl (htonl seq) = (if s.ping_id = 0 then ntohl (htonl seq) else s.ping_id) then
              ((if s.ping_id = 0 then ntohl (htonl seq) else s.ping_id) + 1)
                % 2 ^ c.counter_bits
            else (if s.ping_id = 0 then ntohl (htonl seq) else s.ping_id)) },
        [server_effect.reply_send
          { p.pong with id := (s.id : Int), service := htonl s.service_type, heartbeat := true }]
          ++ (if p.hc_ping then [server_effect.hc_pong_send] else [])) := by
  rw [step_registered_request c s _ ⟨true, htonl seq, 0⟩ hreg rfl]
  rw [service_request_heartbeat c s _ _ _ hw rfl]
  simp only [RSF_Server.heartbeat_poll]
  rw [ping_timeout_postponed c _ _ (d + (c.HEARTBEAT_INTERVAL + c.WCDPING))
    (Nat.add_assoc _ _ _)]

/-- C6: a registered worker that finds a heartbeat with decoded sequence number
r on the reply socket ends the iteration with `ping_id` equal to q + 1 (in the
width of the counter) when r = q and to q otherwise, where q is r if `ping_id`
was 0 and the old `ping_id` if not; `request_id` is unchanged; exactly one
message is sent on the reply socket, with heartbeat true, the worker's id and
its service in network byte order; no task is spawned.  From `ping_id` 0 the
heartbeats 7, 8, 8 give `ping_id` 8, 9, 9 and one pong each. -/
theorem C6_heartbeat_handling (c : server_const) (s : RSF_Server) (p : poll_t)
    (sm : service_module) (s0 : RSF_Server) (p1 p2 p3 : poll_t) (d1 d2 d3 : Nat)
    (hw : 32 ≤ c.counter_bits) (hreg : s.reg_ok = true) (hreq : p.request = some sm)
    (hhb : sm.heartbeat = true) :
    (∃ s1, (RSF_Server.step c s p).1 = some s1
      ∧ s1.ping_id =
          (if ntohl sm.seq_id = (if s.ping_id = 0 then ntohl sm.seq_id else s.ping_id) then
            ((if s.ping_id = 0 then ntohl sm.seq_id else s.ping_id) + 1) % 2 ^ c.counter_bits
          else (if s.ping_id = 0 then ntohl sm.seq_id else s.ping_id))
      ∧ s1.request_id = s.request_id)
    ∧ RSF_Server.reply_sends (RSF_Server.step c s p).2 =
        [{ p.pong with id := (s.id : Int), service := htonl s.service_type, heartbeat := true }]
    ∧ RSF_Server.spawned (RSF_Server.step c s p).2 = []
    ∧ (∃ s1 s2 s3,
        (RSF_Server.step c { s0 with reg_ok := true, ping_id := 0 }
            (RSF_Server.heartbeat_poll p1 7 d1)).1 = some s1
        ∧ (RSF_Server.step c s1 (RSF_Server.heartbeat_poll p2 8 d2)).1 = some s2
        ∧ (RSF_Server.step c s2 (RSF_Server.heartbeat_poll p3 8 d3)).1 = some s3
        ∧ s1.ping_id = 8 ∧ s2.ping_id = 9 ∧ s3.ping_id = 9
        ∧ RSF_Server.reply_sends
            (RSF_Server.step c { s0 with reg_ok := true, ping_id := 0 }
              (RSF_Server.heartbeat_poll p1 7 d1)).2 =
            [{ p1.pong with
                id := (s0.id : Int), service := htonl s0.service_type, heartbeat := true }]
        ∧ RSF_Server.reply_sends (RSF_Server.step c s1 (RSF_Server.heartbeat_poll p2 8 d2)).2 =
            [{ p2.pong with
                id := (s0.id : Int), service := htonl s0.service_type, heartbeat := true }]
        ∧ RSF_Server.reply_sends (RSF_Server.step c s2 (RSF_Server.heartbeat_poll p3 8 d3)).2 =
            [{ p3.pong with
                id := (s0.id : Int), service := htonl s0.service_type, heartbeat := true }]) := by
  have hpow : (2 : Nat) ^ 32 ≤ 2 ^ c.counter_bits := Nat.pow_le_pow_right (by norm_num) hw
  have h7 : ntohl (htonl 7) = 7 := by norm_num [ntohl, htonl, be32]
  have h8 : ntohl (htonl 8) = 8 := by norm_num [ntohl, htonl, be32]
  have m8 : 8 % 2 ^ c.counter_bits = 8 :=
    Nat.mod_eq_of_lt (lt_of_lt_of_le (by norm_num) hpow)
  have m9 : 9 % 2 ^ c.counter_bits = 9 :=
    Nat.mod_eq_of_lt (lt_of_lt_of_le (by norm_num) hpow)
  have hc : ∀ b : Bool, RSF_Server.reply_sends
      (if b then [server_effect.hc_pong_send] else []) = [] ∧
      RSF_Server.spawned (if b then [server_effect.hc_pong_send] else []) = [] := by
    intro b; cases b <;> simp [RSF_Server.reply_sends, RSF_Server.spawned]
  have e1 := step_heartbeat_poll c { s0 with reg_ok := true, ping_id := 0 } p1 7 d1 hw rfl
  have e2 := step_heartbeat_poll c
    { s0 with reg_ok := true, ping_id := 8
              time_t := p1.tmp_t + d1 + (c.HEARTBEAT_INTERVAL + c.WCDPING) } p2 8 d2 hw rfl
  have e3 := step_heartbeat_poll c
    { s0 with reg_ok := true, ping_id := 9
              time_t := p2.tmp_t + d2 + (c.HEARTBEAT_INTERVAL + c.WCDPING) } p3 8 d3 hw rfl
  simp only [h7, h8, m8, m9, if_true, Nat.reduceAdd, Nat.reduceEqDiff, if_false,
    OfNat.ofNat_ne_zero] at e1 e2 e3
  refine ⟨?_, ?_, ?_, ?_⟩
  · rw [step_registered_request c s p sm hreg hreq, service_request_heartbeat c s sm _ _ hw hhb]
    refine ⟨_, rfl, ?_, ?_⟩
    · rw [(ping_timeout_counters c _ p).1]
    · rw [(ping_timeout_counters c _ p).2]
  · rw [step_registered_request c s p sm hreg hreq, service_request_heartbeat c s sm _ _ hw hhb]
    simp [reply_sends_append, (hc p.hc_ping).1, RSF_Server.reply_sends]
  · rw [step_registered_request c s p sm hreg hreq, service_request_heartbeat c s sm _ _ hw hhb]
    simp [spawned_append, (hc p.hc_ping).2, RSF_Server.spawned]
  · refine ⟨{ s0 with reg_ok := true, ping_id := 8
                      time_t := p1.tmp_t + d1 + (c.HEARTBEAT_INTERVAL + c.WCDPING) },
      { s0 with reg_ok := true, ping_id := 9
                time_t := p2.tmp_t + d2 + (c.HEARTBEAT_INTERVAL + c.WCDPING) },
      { s0 with reg_ok := true, ping_id := 9
                time_t := p3.tmp_t + d3 + (c.HEARTBEAT_INTERVAL + c.WCDPING) },
      ?_, ?_, ?_, rfl, rfl, rfl, ?_, ?_, ?_⟩
    · rw [e1]
    · rw [e2]
    · rw [e3]
    · rw [e1]; simp [reply_sends_append, hc, RSF_Server.reply_sends]
    · rw [e2]; simp [reply_sends_append, hc, RSF_Server.reply_sends]
    · rw [e3]; simp [reply_sends_append, hc, RSF_Server.reply_sends]

/-- C6 at a registered worker (id 1, service 7) with `ping_id` 0 that receives
the heartbeat 7: one pong, and the three-heartbeat scenario from that state. -/
theorem C6_heartbeat_handling_witness :
    (32 : Nat) ≤ (⟨1000, 100, 3, 32⟩ : server_const).counter_bits
    ∧ (⟨1, 7, 0, 0, 6000, [server_socket.hc_pong, server_socket.reply 6000], 0, 0, 1100,
          true, ⟨0, false, false, 0, 0⟩⟩ : RSF_Server).reg_ok = true
    ∧ RSF_Server.reply_sends
        (RSF_Server.step ⟨1000, 100, 3, 32⟩
          ⟨1, 7, 0, 0, 6000, [server_socket.hc_pong, server_socket.reply 6000], 0, 0, 1100,
            true, ⟨0, false, false, 0, 0⟩⟩
          ⟨500, some ⟨true, htonl 7, 0⟩, 500, false, 0, 0, 0, ⟨0, false, false, 0, 0⟩⟩).2
        = [⟨1, true, false, htonl 7, 0⟩] :=
  ⟨by decide, rfl,
   (C6_heartbeat_handling ⟨1000, 100, 3, 32⟩
      ⟨1, 7, 0, 0, 6000, [server_socket.hc_pong, server_socket.reply 6000], 0, 0, 1100,
        true, ⟨0, false, false, 0, 0⟩⟩
      ⟨500, some ⟨true, htonl 7, 0⟩, 500, false, 0, 0, 0, ⟨0, false, false, 0, 0⟩⟩
      ⟨true, htonl 7, 0⟩
      ⟨1, 7, 0, 0, 6000, [server_socket.hc_pong, server_socket.reply 6000], 0, 0, 1100,
        true, ⟨0, false, false, 0, 0⟩⟩
      ⟨500, none, 500, false, 0, 0, 0, ⟨0, false, false, 0, 0⟩⟩
      ⟨700, none, 700, false, 0, 0, 0, ⟨0, false, false, 0, 0⟩⟩
      ⟨900, none, 900, false, 0, 0, 0, ⟨0, false, false, 0, 0⟩⟩
      1 1 1 (by decide) rfl rfl rfl).2.1⟩

/-- C7: a registered worker whose `request_id` is not 0 and that finds a service
request with a decoded sequence number other than `request_id` sends exactly
one message on the reply socket (duplicated true, heartbeat false, its id, its
service in network byte order), spawns no task and keeps `request_id`; a
registered worker that finds a service request whose decoded sequence number
equals `request_id` spawns exactly one task, with the request's parameter, and
sends nothing on the reply socket in that iteration. -/
theorem C7_duplicate_suppression (c : server_const)
    (s : RSF_Server) (p : poll_t) (sm : service_module)
    (s2 : RSF_Server) (p2 : poll_t) (sm2 : service_module)
    (hreg : s.reg_ok = true) (hreq : p.request = some sm) (hhb : sm.heartbeat = false)
    (hadopted : s.request_id ≠ 0) (hdiff : ntohl sm.seq_id ≠ s.request_id)
    (hreg2 : s2.reg_ok = true) (hreq2 : p2.request = some sm2) (hhb2 : sm2.heartbeat = false)
    (hsame : ntohl sm2.seq_id = s2.request_id) :
    (RSF_Server.reply_sends (RSF_Server.step c s p).2 =
        [{ s.server_reply with
            id := (s.id : Int), heartbeat := false,
            service := htonl s.service_type, duplicated := true }]
      ∧ RSF_Server.spawned (RSF_Server.step c s p).2 = []
      ∧ ∃ s1, (RSF_Server.step c s p).1 = some s1 ∧ s1.request_id = s.request_id)
    ∧ (RSF_Server.spawned (RSF_Server.step c s2 p2).2 = [sm2.parameter]
      ∧ RSF_Server.reply_sends (RSF_Server.step c s2 p2).2 = []) := by
  have hc : ∀ b : Bool, RSF_Server.reply_sends
      (if b then [server_effect.hc_pong_send] else []) = [] ∧
      RSF_Server.spawned (if b then [server_effect.hc_pong_send] else []) = [] := by
    intro b; cases b <;> simp [RSF_Server.reply_sends, RSF_Server.spawned]
  have hd : RSF_Server.service_request c s sm p.request_clock p.pong =
      ({ s with
          val := sm.parameter
          time_t := p.request_clock + (c.HEARTBEAT_INTERVAL + c.WCDPING)
          server_reply := { s.server_reply with
            id := (s.id : Int), heartbeat := false,
            service := htonl s.service_type, duplicated := true } },
        [server_effect.reply_send { s.server_reply with
            id := (s.id : Int), heartbeat := false,
            service := htonl s.service_type, duplicated := true }]) := by
    unfold RSF_Server.service_request RSF_Server.receive_request
    simp [hhb, hadopted, hdiff, time_add_ms]
  have hm : (RSF_Server.service_request c s2 sm2 p2.request_clock p2.pong).2 =
      [server_effect.create_thread sm2.parameter] := by
    unfold RSF_Server.service_request RSF_Server.receive_request
    by_cases h0 : s2.request_id = 0
    · have hz : ntohl sm2.seq_id = 0 := by rw [hsame, h0]
      simp [hhb2, h0, hz]
    · simp [hhb2, h0, hsame]
  refine ⟨⟨?_, ?_, ?_⟩, ?_, ?_⟩
  · rw [step_registered_request c s p sm hreg hreq, hd]
    simp [reply_sends_append, (hc p.hc_ping).1, RSF_Server.reply_sends]
  · rw [step_registered_request c s p sm hreg hreq, hd]
    simp [spawned_append, (hc p.hc_ping).2, RSF_Server.spawned]
  · rw [step_registered_request c s p sm hreg hreq, hd]
    exact ⟨_, rfl, (ping_timeout_counters c _ p).2⟩
  · rw [step_registered_request c s2 p2 sm2 hreg2 hreq2]
    simp [spawned_append, (hc p2.hc_ping).2, RSF_Server.spawned, hm]
  · rw [step_registered_request c s2 p2 sm2 hreg2 hreq2]
    simp [reply_sends_append, (hc p2.hc_ping).1, RSF_Server.reply_sends, hm]

/-- C7 at a registered worker (id 1, service 7) expecting request 5: the request
4 is answered as duplicated, the request 5 spawns the task with parameter 11. -/
theorem C7_duplicate_suppression_witness :
    ((5 : Nat) ≠ 0 ∧ ntohl (htonl 4) ≠ 5 ∧ ntohl (htonl 5) = 5)
    ∧ (RSF_Server.reply_sends
        (RSF_Server.step ⟨1000, 100, 3, 32⟩
          ⟨1, 7, 0, 5, 6000, [server_socket.hc_pong, server_socket.reply 6000], 0, 0, 1100,
            true, ⟨0, true, false, 0, 33⟩⟩
          ⟨500, some ⟨false, htonl 4, 11⟩, 500, false, 0, 0, 0, ⟨0, false, false, 0, 0⟩⟩).2
        = [⟨1, false, true, htonl 7, 33⟩]
      ∧ RSF_Server.spawned
        (RSF_Server.step ⟨1000, 100, 3, 32⟩
          ⟨1, 7, 0, 5, 6000, [server_socket.hc_pong, server_socket.reply 6000], 0, 0, 1100,
            true, ⟨0, true, false, 0, 33⟩⟩
          ⟨500, some ⟨false, htonl 4, 11⟩, 500, false, 0, 0, 0, ⟨0, false, false, 0, 0⟩⟩).2
        = [])
    ∧ (RSF_Server.spawned
        (RSF_Server.step ⟨1000, 100, 3, 32⟩
          ⟨1, 7, 0, 5, 6000, [server_socket.hc_pong, server_socket.reply 6000], 0, 0, 1100,
            true, ⟨0, true, false, 0, 33⟩⟩
          ⟨500, some ⟨false, htonl 5, 11⟩, 500, false, 0, 0, 0, ⟨0, false, false, 0, 0⟩⟩).2
        = [11]
      ∧ RSF_Server.reply_sends
        (RSF_Server.step ⟨1000, 100, 3, 32⟩
          ⟨1, 7, 0, 5, 6000, [server_socket.hc_pong, server_socket.reply 6000], 0, 0, 1100,
            true, ⟨0, true, false, 0, 33⟩⟩
          ⟨500, some ⟨false, htonl 5, 11⟩, 500, false, 0, 0, 0, ⟨0, false, false, 0, 0⟩⟩).2
        = []) :=
  have h4 : ntohl (htonl 4) ≠ 5 := by norm_num [ntohl, htonl, be32]
  have h5 : ntohl (htonl 5) = 5 := by norm_num [ntohl, htonl, be32]
  have h := C7_duplicate_suppression ⟨1000, 100, 3, 32⟩
    ⟨1, 7, 0, 5, 6000, [server_socket.hc_pong, server_socket.reply 6000], 0, 0, 1100,
      true, ⟨0, true, false, 0, 33⟩⟩
    ⟨500, some ⟨false, htonl 4, 11⟩, 500, false, 0, 0, 0, ⟨0, false, false, 0, 0⟩⟩
    ⟨false, htonl 4, 11⟩
    ⟨1, 7, 0, 5, 6000, [server_socket.hc_pong, server_socket.reply 6000], 0, 0, 1100,
      true, ⟨0, true, false, 0, 33⟩⟩
    ⟨500, some ⟨false, htonl 5, 11⟩, 500, false, 0, 0, 0, ⟨0, false, false, 0, 0⟩⟩
    ⟨false, htonl 5, 11⟩
    rfl rfl rfl (by decide) h4 rfl rfl rfl h5
  ⟨⟨by decide, h4, h5⟩, ⟨h.1.1, h.1.2.1⟩, h.2⟩

/-- C8: with LIVENESS = 2 a worker registers, then meets a ping-loss timeout,
then a heartbeat on the reply socket, then a second ping-loss timeout.  No two
timeouts are consecutive, yet `ping_loss`, which the heartbeat did not reset,
reaches LIVENESS at the second timeout: the worker drops the reply socket from
its poll set and clears `reg_ok`.  The same happens with LIVENESS = 3 at the
third of three timeouts separated by heartbeats. -/
theorem C8_unregistered_after_separated_timeouts :
    (RSF_Server.run ⟨1000, 100, 2, 32⟩
        (RSF_Server.ctor 1 7 0 0 ⟨0, false, false, 0, 0⟩ 0)
        [⟨0, none, 0, false, 6000, 0, 0, ⟨0, false, false, 0, 0⟩⟩,
         ⟨1200, none, 0, false, 0, 0, 1200, ⟨0, false, false, 0, 0⟩⟩,
         ⟨1300, some ⟨true, htonl 1, 0⟩, 1300, false, 0, 0, 0, ⟨0, false, false, 0, 0⟩⟩])
      = (some ⟨1, 7, 2, 0, 6000, [server_socket.hc_pong, server_socket.reply 6000], 0, 1, 2400,
            true, ⟨0, false, false, 0, 0⟩⟩,
          [server_effect.registration,
           server_effect.reply_send ⟨1, true, false, htonl 7, 0⟩])
    ∧ (RSF_Server.run ⟨1000, 100, 2, 32⟩
        (RSF_Server.ctor 1 7 0 0 ⟨0, false, false, 0, 0⟩ 0)
        [⟨0, none, 0, false, 6000, 0, 0, ⟨0, false, false, 0, 0⟩⟩,
         ⟨1200, none, 0, false, 0, 0, 1200, ⟨0, false, false, 0, 0⟩⟩,
         ⟨1300, some ⟨true, htonl 1, 0⟩, 1300, false, 0, 0, 0, ⟨0, false, false, 0, 0⟩⟩,
         ⟨2500, none, 0, false, 0, 0, 2500, ⟨0, false, false, 0, 0⟩⟩])
      = (some ⟨1, 7, 2, 0, 6000, [server_socket.hc_pong], 0, 2, 3600,
            false, ⟨0, false, false, 0, 0⟩⟩,
          [server_effect.registration,
           server_effect.reply_send ⟨1, true, false, htonl 7, 0⟩])
    ∧ (RSF_Server.run ⟨1000, 100, 3, 32⟩
        (RSF_Server.ctor 1 7 0 0 ⟨0, false, false, 0, 0⟩ 0)
        [⟨0, none, 0, false, 6000, 0, 0, ⟨0, false, false, 0, 0⟩⟩,
         ⟨1200, none, 0, false, 0, 0, 1200, ⟨0, false, false, 0, 0⟩⟩,
         ⟨1300, some ⟨true, htonl 1, 0⟩, 1300, false, 0, 0, 0, ⟨0, false, false, 0, 0⟩⟩,
         ⟨2500, none, 0, false, 0, 0, 2500, ⟨0, false, false, 0, 0⟩⟩,
         ⟨2600, some ⟨true, htonl 2, 0⟩, 2600, false, 0, 0, 0, ⟨0, false, false, 0, 0⟩⟩,
         ⟨3800, none, 0, false, 0, 0, 3800, ⟨0, false, false, 0, 0⟩⟩]).1
      = some ⟨1, 7, 3, 0, 6000, [server_socket.hc_pong], 0, 3, 4900,
            false, ⟨0, false, false, 0, 0⟩⟩ := by
  refine ⟨?_, ?_, ?_⟩ <;> decide

/-- The scan of the available services sets the flag exactly when the service
is in the vector. -/
theorem scan_registered_eq (services : List service_type_t) (service : service_type_t)
    (acc : Bool) :
    Broker.scan_registered services service acc = (acc || decide (service ∈ services)) := by
  unfold Broker.scan_registered
  induction services generalizing acc with
  | nil => simp
  | cons x xs ih =>
    rw [List.foldl_cons, ih]
    by_cases hx : x = service
    · simp [hx]
    · have hx1 : ¬ service = x := fun h => hx h.symm
      simp [hx, hx1]

/-- The shape of a well-formed registration envelope. -/
theorem envelope_registration_some (frames : List Broker.recv_t) (rm : registration_module)
    (ready : Bool) (h : Broker.envelope_registration frames = some (rm, ready)) :
    ∃ f0 f1 f2, frames = [f0, f1, f2] ∧ f0.more = 1 ∧ f1.more = 1 ∧ f2.more = 0 ∧
      f2.message = message_t.registration rm ∧ f2.db_ready = ready := by
  match frames, h with
  | [f0, f1, f2], h =>
    simp only [Broker.envelope_registration] at h
    by_cases hf : f0.more = 1 ∧ f1.more = 1 ∧ f2.more = 0
    · rw [if_pos hf] at h
      refine ⟨f0, f1, f2, rfl, hf.1, hf.2.1, hf.2.2, ?_⟩
      cases hm : f2.message <;> rw [hm] at h <;> simp at h
      obtain ⟨h1, h2⟩ := h
      subst h1
      exact ⟨rfl, h2⟩
    · rw [if_neg hf] at h
      cases h

/-- What `Broker::get_registration` does with a well-formed envelope. -/
theorem get_registration_envelope (HEARTBEAT_INTERVAL : Nat) (b : Broker)
    (f0 f1 f2 : Broker.recv_t) (rm : registration_module)
    (h0 : f0.more = 1) (h1 : f1.more = 1) (h2 : f2.more = 0)
    (hm : f2.message = message_t.registration rm) :
    Broker.get_registration HEARTBEAT_INTERVAL b [f0, f1, f2] =
      some
        ((if f2.db_ready = true ∧ rm.service ∉ b.available_services then
            { b with
              available_dealer_port := f2.db_port
              available_services := b.available_services ++ [rm.service]
              dealer := b.dealer ++ [socket_t.dealer f2.db_ret]
              items := b.items ++ [socket_t.dealer f2.db_ret]
              timeout := b.timeout ++ [f2.clock + HEARTBEAT_INTERVAL] }
          else { b with available_dealer_port := f2.db_port }),
         [Effect.send socket_t.reg f0.message true,
          Effect.send socket_t.reg f1.message true,
          Effect.push_registration rm b.available_dealer_port,
          Effect.send socket_t.reg (message_t.port f2.db_ret) false]) := by
  by_cases hr : f2.db_ready = true <;> by_cases hs : rm.service ∈ b.available_services <;>
    simp [Broker.get_registration, Broker.registration_loop, Broker.registration_frame,
      ENVELOPE, h0, h1, h2, hm, as_registration, scan_registered_eq, Broker.add_dealer,
      time_add_ms, hr, hs]

/-- With `dealer` as long as `available_services`, a service has as many
dispatch sockets as it has entries in `available_services`. -/
theorem dispatch_channels_length (service : service_type_t) (services : List service_type_t)
    (dealer : List socket_t) (h : dealer.length = services.length) :
    (((services.zip dealer).filter (fun p => decide (p.1 = service))).map Prod.snd).length =
      services.count service := by
  induction services generalizing dealer with
  | nil => simp
  | cons a t ih =>
    cases dealer with
    | nil => simp at h
    | cons d ds =>
      simp only [List.length_cons, Nat.add_right_cancel_iff] at h
      have hrec := ih ds h
      by_cases hs : a = service
      · simp [List.filter_cons, hs, List.count_cons] at hrec ⊢
        exact hrec
      · simp [List.filter_cons, hs, List.count_cons] at hrec ⊢
        exact hrec

/-- In an aligned broker a service has a dispatch socket exactly when it is
listed in `available_services`. -/
theorem dispatch_channels_ne_nil_iff (b : Broker) (service : service_type_t)
    (h : Broker.aligned b) :
    Broker.dispatch_channels b service ≠ [] ↔ service ∈ b.available_services := by
  have hl := dispatch_channels_length service b.available_services b.dealer h.2.1
  rw [← List.length_pos, ← List.count_pos_iff]
  unfold Broker.dispatch_channels
  rw [hl]

/-- In an aligned broker no service has two dispatch sockets. -/
theorem dispatch_channels_le_one (b : Broker) (service : service_type_t)
    (h : Broker.aligned b) : (Broker.dispatch_channels b service).length ≤ 1 := by
  have hl := dispatch_channels_length service b.available_services b.dealer h.2.1
  unfold Broker.dispatch_channels
  rw [hl]
  exact List.nodup_iff_count_le_one.mp h.1 service

/-- One well-formed registration keeps the broker aligned and lists a new
service exactly when the database reports it ready. -/
theorem get_registration_aligned (HEARTBEAT_INTERVAL : Nat) (b : Broker)
    (frames : List Broker.recv_t) (rm : registration_module) (ready : Bool)
    (hb : Broker.aligned b) (h : Broker.envelope_registration frames = some (rm, ready)) :
    ∃ b1 out, Broker.get_registration HEARTBEAT_INTERVAL b frames = some (b1, out)
      ∧ Broker.aligned b1
      ∧ (∀ service, service ∈ b1.available_services ↔
          service ∈ b.available_services ∨ (ready = true ∧ rm.service = service))
      ∧ (ready = true → rm.service ∉ b.available_services →
          ∃ port clock, b1.available_services = b.available_services ++ [rm.service]
            ∧ b1.dealer = b.dealer ++ [socket_t.dealer port]
            ∧ b1.items = b.items ++ [socket_t.dealer port]
            ∧ b1.timeout = b.timeout ++ [clock + HEARTBEAT_INTERVAL])
      ∧ (¬ (ready = true ∧ rm.service ∉ b.available_services) →
          b1.available_services = b.available_services ∧ b1.dealer = b.dealer
            ∧ b1.items = b.items ∧ b1.timeout = b.timeout) := by
  obtain ⟨f0, f1, f2, rfl, h0, h1, h2, hm, hr⟩ := envelope_registration_some frames rm ready h
  refine ⟨_, _, get_registration_envelope HEARTBEAT_INTERVAL b f0 f1 f2 rm h0 h1 h2 hm, ?_⟩
  rw [hr]
  obtain ⟨hnd, hd, ht, hi⟩ := hb
  by_cases hc : ready = true ∧ rm.service ∉ b.available_services
  · rw [if_pos hc]
    refine ⟨⟨?_, ?_, ?_, ?_⟩, ?_, ?_, ?_⟩
    · simp only []
      rw [List.nodup_append]
      refine ⟨hnd, List.nodup_singleton _, ?_⟩
      intro x hx hx1
      rw [List.mem_singleton] at hx1
      subst hx1
      exact hc.2 hx
    · simp [hd]
    · simp [ht]
    · simp [hi, Nat.add_assoc]
    · intro service
      simp only [List.mem_append, List.mem_singleton]
      constructor
      · rintro (hx | hx)
        · exact Or.inl hx
        · exact Or.inr ⟨hc.1, hx.symm⟩
      · rintro (hx | ⟨_, hx⟩)
        · exact Or.inl hx
        · exact Or.inr hx.symm
    · intro _ _
      exact ⟨f2.db_ret, f2.clock, rfl, rfl, rfl, rfl⟩
    · intro hn
      exact absurd hc hn
  · rw [if_neg hc]
    refine ⟨⟨hnd, hd, ht, hi⟩, ?_, ?_, ?_⟩
    · intro service
      simp only []
      constructor
      · intro hx
        exact Or.inl hx
      · rintro (hx | ⟨hx1, hx2⟩)
        · exact hx
        · by_contra hx3
          exact hc ⟨hx1, hx2 ▸ hx3⟩
    · intro hx1 hx2
      exact absurd ⟨hx1, hx2⟩ hc
    · intro _
      exact ⟨rfl, rfl, rfl, rfl⟩

/-- A sequence of well-formed registrations from an aligned broker: the calls
all return, the broker stays aligned, and the services listed at the end are
those listed at the start and those the database reported ready. -/
theorem registrations_aligned (HEARTBEAT_INTERVAL : Nat) (ins : List (List Broker.recv_t)) :
    ∀ b : Broker, Broker.aligned b →
      (∀ frames ∈ ins, (Broker.envelope_registration frames).isSome = true) →
      ∃ b1, Broker.registrations HEARTBEAT_INTERVAL b ins = some b1 ∧ Broker.aligned b1
        ∧ ∀ service, service ∈ b1.available_services ↔
            service ∈ b.available_services ∨
              ∃ frames ∈ ins, ∃ rm, Broker.envelope_registration frames = some (rm, true)
                ∧ rm.service = service := by
  induction ins with
  | nil =>
    intro b hb _
    exact ⟨b, rfl, hb, fun service => by simp⟩
  | cons frames rest ih =>
    intro b hb hwf
    have hsome := hwf frames (List.mem_cons_self _ _)
    obtain ⟨⟨rm, ready⟩, hrm⟩ := Option.isSome_iff_exists.mp hsome
    obtain ⟨b1, out, hget, hb1, hmem, _, _⟩ :=
      get_registration_aligned HEARTBEAT_INTERVAL b frames rm ready hb hrm
    obtain ⟨b2, hrun, hb2, hmem2⟩ :=
      ih b1 hb1 (fun fr hfr => hwf fr (List.mem_cons_of_mem _ hfr))
    refine ⟨b2, ?_, hb2, ?_⟩
    · simp only [Broker.registrations, hget]
      exact hrun
    · intro service
      rw [hmem2 service, hmem service]
      constructor
      · rintro ((hx | ⟨hr, hs⟩) | ⟨fr, hfr, rm1, he, hs⟩)
        · exact Or.inl hx
        · exact Or.inr ⟨frames, List.mem_cons_self _ _, rm, by rw [hrm, hr], hs⟩
        · exact Or.inr ⟨fr, List.mem_cons_of_mem _ hfr, rm1, he, hs⟩
      · rintro (hx | ⟨fr, hfr, rm1, he, hs⟩)
        · exact Or.inl (Or.inl hx)
        · rcases List.mem_cons.mp hfr with hfr1 | hfr1
          · subst hfr1
            rw [hrm] at he
            simp only [Option.some.injEq, Prod.mk.injEq] at he
            obtain ⟨he1, he2⟩ := he
            subst he1
            exact Or.inl (Or.inr ⟨he2, hs⟩)
          · exact Or.inr ⟨fr, hfr1, rm1, he, hs⟩

/-- C9: after any sequence of well-formed registrations handled by
`Broker::get_registration` from the constructed broker, every call has
returned and a service has a dispatch socket if and only if the database
reported its cohort ready at one of its registrations; no service has more
than one dispatch socket; `dealer`, the poll items after the three fixed ones,
`available_services` and `timeout` have one entry per such service.  A further
registration appends exactly one entry to each of the four vectors when the
database reports the cohort ready and the service has no dispatch socket yet,
and leaves the four vectors as they are otherwise. -/
theorem C9_dispatch_channel_iff_ready (HEARTBEAT_INTERVAL DEALER_START_PORT : Nat)
    (nmr port_router port_reg : Nat) (ins : List (List Broker.recv_t))
    (hwf : ∀ frames ∈ ins, (Broker.envelope_registration frames).isSome = true) :
    ∃ b, Broker.registrations HEARTBEAT_INTERVAL
          (Broker.ctor DEALER_START_PORT nmr port_router port_reg) ins = some b
      ∧ (∀ service, Broker.dispatch_channels b service ≠ [] ↔
          ∃ frames ∈ ins, ∃ rm, Broker.envelope_registration frames = some (rm, true)
            ∧ rm.service = service)
      ∧ (∀ service, (Broker.dispatch_channels b service).length ≤ 1)
      ∧ Broker.aligned b
      ∧ (∀ frames rm ready, Broker.envelope_registration frames = some (rm, ready) →
          ∃ b1 out, Broker.get_registration HEARTBEAT_INTERVAL b frames = some (b1, out)
            ∧ (ready = true → Broker.dispatch_channels b rm.service = [] →
                ∃ port clock, b1.available_services = b.available_services ++ [rm.service]
                  ∧ b1.dealer = b.dealer ++ [socket_t.dealer port]
                  ∧ b1.items = b.items ++ [socket_t.dealer port]
                  ∧ b1.timeout = b.timeout ++ [clock + HEARTBEAT_INTERVAL])
            ∧ (¬ (ready = true ∧ Broker.dispatch_channels b rm.service = []) →
                b1.available_services = b.available_services ∧ b1.dealer = b.dealer
                  ∧ b1.items = b.items ∧ b1.timeout = b.timeout)) := by
  have h0 : Broker.aligned (Broker.ctor DEALER_START_PORT nmr port_router port_reg) := by
    simp [Broker.aligned, Broker.ctor, DEALER_POLL_INDEX]
  obtain ⟨b, hrun, hb, hmem⟩ := registrations_aligned HEARTBEAT_INTERVAL ins _ h0 hwf
  have hnil : ∀ service, Broker.dispatch_channels b service = [] ↔
      service ∉ b.available_services := by
    intro service
    rw [← dispatch_channels_ne_nil_iff b service hb]
    exact not_not.symm
  refine ⟨b, hrun, ?_, ?_, hb, ?_⟩
  · intro service
    rw [dispatch_channels_ne_nil_iff b service hb, hmem service]
    simp [Broker.ctor]
  · intro service
    exact dispatch_channels_le_one b service hb
  · intro frames rm ready henv
    obtain ⟨b1, out, hget, _, _, hnew, hold⟩ :=
      get_registration_aligned HEARTBEAT_INTERVAL b frames rm ready hb henv
    refine ⟨b1, out, hget, ?_, ?_⟩
    · intro hr hd
      exact hnew hr ((hnil rm.service).mp hd)
    · intro hn
      apply hold
      rintro ⟨hr, hs⟩
      exact hn ⟨hr, (hnil rm.service).mpr hs⟩

/-- C9 at three registrations for service 7 with redundancy 3: the database
reports the cohort ready at the third one and again at a fourth, repeated one;
service 7 ends with exactly the dispatch socket created at the third. -/
theorem C9_dispatch_channel_iff_ready_witness :
    (∀ frames ∈
        [[(⟨message_t.raw [0, 1, 0, 0, 0], 1, 0, false, 0, 0⟩ : Broker.recv_t),
          ⟨message_t.raw [], 1, 0, false, 0, 0⟩,
          ⟨message_t.registration ⟨[65], 7⟩, 0, 0, false, 6000, 10⟩],
         [⟨message_t.raw [0, 2, 0, 0, 0], 1, 0, false, 0, 0⟩,
          ⟨message_t.raw [], 1, 0, false, 0, 0⟩,
          ⟨message_t.registration ⟨[66], 7⟩, 0, 0, false, 6000, 20⟩],
         [⟨message_t.raw [0, 3, 0, 0, 0], 1, 0, false, 0, 0⟩,
          ⟨message_t.raw [], 1, 0, false, 0, 0⟩,
          ⟨message_t.registration ⟨[67], 7⟩, 0, 6000, true, 6001, 30⟩],
         [⟨message_t.raw [0, 3, 0, 0, 0], 1, 0, false, 0, 0⟩,
          ⟨message_t.raw [], 1, 0, false, 0, 0⟩,
          ⟨message_t.registration ⟨[67], 7⟩, 0, 6000, true, 6001, 40⟩]],
      (Broker.envelope_registration frames).isSome = true)
    ∧ ∃ b, Broker.registrations 1000 (Broker.ctor 6000 3 5000 5001)
        [[(⟨message_t.raw [0, 1, 0, 0, 0], 1, 0, false, 0, 0⟩ : Broker.recv_t),
          ⟨message_t.raw [], 1, 0, false, 0, 0⟩,
          ⟨message_t.registration ⟨[65], 7⟩, 0, 0, false, 6000, 10⟩],
         [⟨message_t.raw [0, 2, 0, 0, 0], 1, 0, false, 0, 0⟩,
          ⟨message_t.raw [], 1, 0, false, 0, 0⟩,
          ⟨message_t.registration ⟨[66], 7⟩, 0, 0, false, 6000, 20⟩],
         [⟨message_t.raw [0, 3, 0, 0, 0], 1, 0, false, 0, 0⟩,
          ⟨message_t.raw [], 1, 0, false, 0, 0⟩,
          ⟨message_t.registration ⟨[67], 7⟩, 0, 6000, true, 6001, 30⟩],
         [⟨message_t.raw [0, 3, 0, 0, 0], 1, 0, false, 0, 0⟩,
          ⟨message_t.raw [], 1, 0, false, 0, 0⟩,
          ⟨message_t.registration ⟨[67], 7⟩, 0, 6000, true, 6001, 40⟩]] = some b
      ∧ (Broker.dispatch_channels b 7).length ≤ 1 ∧ Broker.aligned b :=
  have hwf : ∀ frames ∈
        [[(⟨message_t.raw [0, 1, 0, 0, 0], 1, 0, false, 0, 0⟩ : Broker.recv_t),
          ⟨message_t.raw [], 1, 0, false, 0, 0⟩,
          ⟨message_t.registration ⟨[65], 7⟩, 0, 0, false, 6000, 10⟩],
         [⟨message_t.raw [0, 2, 0, 0, 0], 1, 0, false, 0, 0⟩,
          ⟨message_t.raw [], 1, 0, false, 0, 0⟩,
          ⟨message_t.registration ⟨[66], 7⟩, 0, 0, false, 6000, 20⟩],
         [⟨message_t.raw [0, 3, 0, 0, 0], 1, 0, false, 0, 0⟩,
          ⟨message_t.raw [], 1, 0, false, 0, 0⟩,
          ⟨message_t.registration ⟨[67], 7⟩, 0, 6000, true, 6001, 30⟩],
         [⟨message_t.raw [0, 3, 0, 0, 0], 1, 0, false, 0, 0⟩,
          ⟨message_t.raw [], 1, 0, false, 0, 0⟩,
          ⟨message_t.registration ⟨[67], 7⟩, 0, 6000, true, 6001, 40⟩]],
      (Broker.envelope_registration frames).isSome = true := by decide
  ⟨hwf,
   (C9_dispatch_channel_iff_ready 1000 6000 3 5000 5001 _ hwf).imp
     (fun _ h => ⟨h.1, h.2.2.1 7, h.2.2.2.1⟩)⟩

/-- `Broker::vote` reads the first three values only. -/
theorem vote_first_three (a b c : Int) (rest : List Int) (result : Int) :
    Broker.vote (a :: b :: c :: rest) result = Broker.vote [a, b, c] result := by
  simp [Broker.vote]

/-- C11, as stated, fails: on the five results 1, 1, 2, 3, 4 `Broker::vote`
returns status 0 with value 1, which occurs twice, while the spec's threshold
for N = 5 is 3 and no value of the list reaches it; inside
`Broker::get_response`, for a broker constructed with redundancy 5, the value
1 is sent to the client. -/
theorem C11_counterexample :
    Broker.vote [1, 1, 2, 3, 4] 0 = some (0, 1)
    ∧ List.count (1 : Int) [1, 1, 2, 3, 4] < Broker.spec_majority_threshold 5
    ∧ (∀ v ∈ ([1, 1, 2, 3, 4] : List Int),
        List.count v [1, 1, 2, 3, 4] < Broker.spec_majority_threshold 5)
    ∧ Broker.get_response
        (Broker.add_dealer (Broker.ctor 6000 5 5000 5001) 6000) 0
        [message_t.raw [0, 9, 0, 0, 0], message_t.raw [],
         message_t.reply ⟨-1, false, false, 7, 4⟩]
        0 ⟨service_status_t.SERVICE_NOT_AVAILABLE, 0⟩ 5 [1, 1, 2, 3, 4]
      = some [Effect.push_result ⟨-1, false, false, 7, 4⟩ 9,
          Effect.get_result 7 9,
          Effect.send_multi_msg socket_t.router
            [message_t.raw [0, 9, 0, 0, 0], message_t.raw [],
             message_t.response ⟨service_status_t.SERVICE_AVAILABLE, 1⟩],
          Effect.delete_request 7 9] := by
  refine ⟨by decide, by decide, by decide, by decide⟩

/-- C11 (amended): on a list of at least three replica results, whatever its
length, `Broker::vote` decides on the first three alone: its outcome is the one
on the first three results; it returns status 0 with a value v only if v occurs
at least twice among the first three; and it returns the failure status 255
exactly when the first three are pairwise distinct.  The results after the
third are never read. -/
theorem C11_vote_decides_on_first_three (a b c : Int) (rest : List Int) (result : Int) :
    Broker.vote (a :: b :: c :: rest) result = Broker.vote [a, b, c] result
    ∧ (∀ v, Broker.vote (a :: b :: c :: rest) result = some (0, v) →
        2 ≤ List.count v [a, b, c])
    ∧ (Broker.vote (a :: b :: c :: rest) result = some (255, result) ↔
        (a ≠ b ∧ a ≠ c ∧ b ≠ c)) := by
  rw [vote_first_three, vote_three]
  refine ⟨rfl, ?_, ?_⟩
  · intro v hv
    by_cases h1 : a = b
    · subst h1
      simp at hv
      subst hv
      simp [List.count_cons]
    · by_cases h2 : a = c
      · subst h2
        simp at hv
        subst hv
        simp [List.count_cons]
      · by_cases h3 : b = c
        · subst h3
          simp [h1] at hv
          subst hv
          simp [List.count_cons]
        · simp [h1, h2, h3] at hv
  · by_cases h1 : a = b
    · simp [h1]
    · by_cases h2 : a = c
      · simp [h1, h2]
      · by_cases h3 : b = c
        · simp [h1, h2, h3]
        · simp [h1, h2, h3]

/-- The loop of the worker after an iteration that did not exit. -/
theorem run_cons_some (c : server_const) (s s1 : RSF_Server) (p : poll_t)
    (ps : List poll_t) (out : List server_effect)
    (h : RSF_Server.step c s p = (some s1, out)) :
    RSF_Server.run c s (p :: ps) =
      ((RSF_Server.run c s1 ps).1, out ++ (RSF_Server.run c s1 ps).2) := by
  simp only [RSF_Server.run, h]

/-- The branch serving the reply socket, on a service request whose decoded
sequence number differs from an adopted `request_id`. -/
theorem service_request_duplicate (c : server_const) (s : RSF_Server) (sm : service_module)
    (clock : timespec) (pong : server_reply_t) (hhb : sm.heartbeat = false)
    (hadopted : s.request_id ≠ 0) (hdiff : ntohl sm.seq_id ≠ s.request_id) :
    RSF_Server.service_request c s sm clock pong =
      ({ s with
          val := sm.parameter
          time_t := clock + (c.HEARTBEAT_INTERVAL + c.WCDPING)
          server_reply := RSF_Server.duplicated_reply s },
        [server_effect.reply_send (RSF_Server.duplicated_reply s)]) := by
  unfold RSF_Server.service_request RSF_Server.receive_request RSF_Server.duplicated_reply
  simp [hhb, hadopted, hdiff, time_add_ms]

/-- An iteration of a registered worker on a service request it takes as a
duplicate, the clock not running backwards inside the iteration. -/
theorem step_duplicate (c : server_const) (s : RSF_Server) (p : poll_t) (sm : service_module)
    (hreg : s.reg_ok = true) (hreq : p.request = some sm) (hhb : sm.heartbeat = false)
    (hadopted : s.request_id ≠ 0) (hdiff : ntohl sm.seq_id ≠ s.request_id)
    (hclock : p.tmp_t ≤ p.request_clock) :
    RSF_Server.step c s p =
      (some { s with
          val := sm.parameter
          time_t := p.request_clock + (c.HEARTBEAT_INTERVAL + c.WCDPING)
          server_reply := RSF_Server.duplicated_reply s },
        [server_effect.reply_send (RSF_Server.duplicated_reply s)] ++
          (if p.hc_ping then [server_effect.hc_pong_send] else [])) := by
  rw [step_registered_request c s p sm hreg hreq,
    service_request_duplicate c s sm _ _ hhb hadopted hdiff]
  obtain ⟨d, hd⟩ := Nat.exists_eq_add_of_le hclock
  rw [ping_timeout_postponed c _ p (d + (c.HEARTBEAT_INTERVAL + c.WCDPING))
    (by show p.request_clock + _ = _; rw [hd, Nat.add_assoc])]

/-- C13: a registered worker whose `request_id` is r, r not 0, and that meets
any finite sequence of service requests none of whose decoded sequence numbers
is r (the clock not running backwards inside an iteration) is still registered
with `request_id` r afterwards; it has spawned no task and has sent exactly one
message per request on the reply socket, each with duplicated true and
heartbeat false.  The expected number is never adopted anew. -/
theorem C13_no_resynchronisation (c : server_const) (polls : List poll_t) (r : Nat)
    (s : RSF_Server) (hreg : s.reg_ok = true) (hr : s.request_id = r) (hr0 : r ≠ 0)
    (hpolls : ∀ p ∈ polls, p.tmp_t ≤ p.request_clock ∧
      ∃ sm, p.request = some sm ∧ sm.heartbeat = false ∧ ntohl sm.seq_id ≠ r) :
    ∃ s1, (RSF_Server.run c s polls).1 = some s1
      ∧ s1.request_id = r ∧ s1.reg_ok = true
      ∧ RSF_Server.spawned (RSF_Server.run c s polls).2 = []
      ∧ RSF_Server.reply_sends (RSF_Server.run c s polls).2 =
          List.replicate polls.length (RSF_Server.duplicated_reply s)
      ∧ (RSF_Server.duplicated_reply s).duplicated = true
      ∧ (RSF_Server.duplicated_reply s).heartbeat = false := by
  have hc : ∀ b : Bool, RSF_Server.reply_sends
      (if b then [server_effect.hc_pong_send] else []) = [] ∧
      RSF_Server.spawned (if b then [server_effect.hc_pong_send] else []) = [] := by
    intro b; cases b <;> simp [RSF_Server.reply_sends, RSF_Server.spawned]
  induction polls generalizing s with
  | nil =>
    exact ⟨s, rfl, hr, hreg, rfl, rfl, rfl, rfl⟩
  | cons p ps ih =>
    obtain ⟨hclock, sm, hreq, hhb, hdiff⟩ := hpolls p (List.mem_cons_self _ _)
    have hstep := step_duplicate c s p sm hreg hreq hhb (hr ▸ hr0) (hr ▸ hdiff) hclock
    obtain ⟨s1, h1, h2, h3, h4, h5, _, _⟩ :=
      ih { s with
          val := sm.parameter
          time_t := p.request_clock + (c.HEARTBEAT_INTERVAL + c.WCDPING)
          server_reply := RSF_Server.duplicated_reply s } hreg hr
        (fun q hq => hpolls q (List.mem_cons_of_mem _ hq))
    rw [run_cons_some c s _ p ps _ hstep]
    refine ⟨s1, h1, h2, h3, ?_, ?_, rfl, rfl⟩
    · simp [spawned_append, (hc p.hc_ping).2, RSF_Server.spawned, h4]
    · have h5a : RSF_Server.reply_sends (RSF_Server.run c
          { s with
            val := sm.parameter
            time_t := p.request_clock + (c.HEARTBEAT_INTERVAL + c.WCDPING)
            server_reply := RSF_Server.duplicated_reply s } ps).2 =
          List.replicate ps.length (RSF_Server.duplicated_reply s) := h5
      have h1a : RSF_Server.reply_sends
          [server_effect.reply_send (RSF_Server.duplicated_reply s)] =
          [RSF_Server.duplicated_reply s] := rfl
      rw [reply_sends_append, reply_sends_append, (hc p.hc_ping).1, h5a, h1a]
      simp [List.replicate_succ]

/-- C13 at a registered worker (id 1, service 7) that expects request 5 and,
request 5 being skipped, receives the requests 6, 7 and 8: it still expects 5,
has spawned nothing and has answered each of the three as duplicated. -/
theorem C13_no_resynchronisation_witness :
    ((5 : Nat) ≠ 0
      ∧ ∀ p ∈ ([⟨500, some ⟨false, htonl 6, 11⟩, 500, false, 0, 0, 0, ⟨0, false, false, 0, 0⟩⟩,
         ⟨700, some ⟨false, htonl 7, 12⟩, 700, false, 0, 0, 0, ⟨0, false, false, 0, 0⟩⟩,
         ⟨900, some ⟨false, htonl 8, 13⟩, 900, false, 0, 0, 0, ⟨0, false, false, 0, 0⟩⟩] : List poll_t),
          p.tmp_t ≤ p.request_clock ∧
            ∃ sm, p.request = some sm ∧ sm.heartbeat = false ∧ ntohl sm.seq_id ≠ 5)
    ∧ ∃ s1,
        (RSF_Server.run ⟨1000, 100, 3, 32⟩
          ⟨1, 7, 0, 5, 6000, [server_socket.hc_pong, server_socket.reply 6000], 0, 0, 1100,
          true, ⟨0, true, false, 0, 33⟩⟩
          [⟨500, some ⟨false, htonl 6, 11⟩, 500, false, 0, 0, 0, ⟨0, false, false, 0, 0⟩⟩,
         ⟨700, some ⟨false, htonl 7, 12⟩, 700, false, 0, 0, 0, ⟨0, false, false, 0, 0⟩⟩,
         ⟨900, some ⟨false, htonl 8, 13⟩, 900, false, 0, 0, 0, ⟨0, false, false, 0, 0⟩⟩]).1 = some s1
        ∧ s1.request_id = 5 ∧ s1.reg_ok = true
        ∧ RSF_Server.spawned
            (RSF_Server.run ⟨1000, 100, 3, 32⟩
              ⟨1, 7, 0, 5, 6000, [server_socket.hc_pong, server_socket.reply 6000], 0, 0, 1100,
          true, ⟨0, true, false, 0, 33⟩⟩
              [⟨500, some ⟨false, htonl 6, 11⟩, 500, false, 0, 0, 0, ⟨0, false, false, 0, 0⟩⟩,
         ⟨700, some ⟨false, htonl 7, 12⟩, 700, false, 0, 0, 0, ⟨0, false, false, 0, 0⟩⟩,
         ⟨900, some ⟨false, htonl 8, 13⟩, 900, false, 0, 0, 0, ⟨0, false, false, 0, 0⟩⟩]).2 = []
        ∧ RSF_Server.reply_sends
            (RSF_Server.run ⟨1000, 100, 3, 32⟩
              ⟨1, 7, 0, 5, 6000, [server_socket.hc_pong, server_socket.reply 6000], 0, 0, 1100,
          true, ⟨0, true, false, 0, 33⟩⟩
              [⟨500, some ⟨false, htonl 6, 11⟩, 500, false, 0, 0, 0, ⟨0, false, false, 0, 0⟩⟩,
         ⟨700, some ⟨false, htonl 7, 12⟩, 700, false, 0, 0, 0, ⟨0, false, false, 0, 0⟩⟩,
         ⟨900, some ⟨false, htonl 8, 13⟩, 900, false, 0, 0, 0, ⟨0, false, false, 0, 0⟩⟩]).2 =
            [⟨1, false, true, htonl 7, 33⟩, ⟨1, false, true, htonl 7, 33⟩,
             ⟨1, false, true, htonl 7, 33⟩] :=
  have h6 : ntohl (htonl 6) ≠ 5 := by norm_num [ntohl, htonl, be32]
  have h7 : ntohl (htonl 7) ≠ 5 := by norm_num [ntohl, htonl, be32]
  have h8 : ntohl (htonl 8) ≠ 5 := by norm_num [ntohl, htonl, be32]
  have hpolls : ∀ p ∈ ([⟨500, some ⟨false, htonl 6, 11⟩, 500, false, 0, 0, 0, ⟨0, false, false, 0, 0⟩⟩,
         ⟨700, some ⟨false, htonl 7, 12⟩, 700, false, 0, 0, 0, ⟨0, false, false, 0, 0⟩⟩,
         ⟨900, some ⟨false, htonl 8, 13⟩, 900, false, 0, 0, 0, ⟨0, false, false, 0, 0⟩⟩] : List poll_t),
      p.tmp_t ≤ p.request_clock ∧
        ∃ sm, p.request = some sm ∧ sm.heartbeat = false ∧ ntohl sm.seq_id ≠ 5 := by
    intro p hp
    simp only [List.mem_cons, List.mem_singleton, List.not_mem_nil, or_false] at hp
    rcases hp with hp | hp | hp
    · subst hp
      exact ⟨Nat.le_refl _, _, rfl, rfl, h6⟩
    · subst hp
      exact ⟨Nat.le_refl _, _, rfl, rfl, h7⟩
    · subst hp
      exact ⟨Nat.le_refl _, _, rfl, rfl, h8⟩
  have h := C13_no_resynchronisation ⟨1000, 100, 3, 32⟩
    [⟨500, some ⟨false, htonl 6, 11⟩, 500, false, 0, 0, 0, ⟨0, false, false, 0, 0⟩⟩,
         ⟨700, some ⟨false, htonl 7, 12⟩, 700, false, 0, 0, 0, ⟨0, false, false, 0, 0⟩⟩,
         ⟨900, some ⟨false, htonl 8, 13⟩, 900, false, 0, 0, 0, ⟨0, false, false, 0, 0⟩⟩] 5
    ⟨1, 7, 0, 5, 6000, [server_socket.hc_pong, server_socket.reply 6000], 0, 0, 1100,
          true, ⟨0, true, false, 0, 33⟩⟩
    rfl rfl (by decide) hpolls
  ⟨⟨by decide, hpolls⟩,
   h.imp (fun _ hs => ⟨hs.1, hs.2.1, hs.2.2.1, hs.2.2.2.1, hs.2.2.2.2.1⟩)⟩

/-- One iteration of the receive loop of `Broker::get_registration` on a final
frame holding a registration module. -/
theorem registration_frame_data (HEARTBEAT_INTERVAL : Nat) (b : Broker)
    (l : Broker.reg_locals) (out : List Effect) (f : Broker.recv_t)
    (rm : registration_module) (hm : f.more = 0)
    (hrm : as_registration f.message = some rm) :
    Broker.registration_frame HEARTBEAT_INTERVAL (b, l, out) f =
      some
        ((if f.db_ready = true ∧ l.already_registered = false ∧
              rm.service ∉ b.available_services then
            { b with
              available_dealer_port := f.db_port
              available_services := b.available_services ++ [rm.service]
              dealer := b.dealer ++ [socket_t.dealer f.db_ret]
              items := b.items ++ [socket_t.dealer f.db_ret]
              timeout := b.timeout ++ [f.clock + HEARTBEAT_INTERVAL] }
          else { b with available_dealer_port := f.db_port }),
         { already_registered :=
             (l.already_registered || decide (rm.service ∈ b.available_services))
           ready := f.db_ready },
         out ++ [Effect.push_registration rm b.available_dealer_port,
                 Effect.send socket_t.reg (message_t.port f.db_ret) false]) := by
  by_cases hr : f.db_ready = true <;> by_cases ha : l.already_registered = true <;>
    by_cases hs : rm.service ∈ b.available_services <;>
    simp [Broker.registration_frame, hm, hrm, scan_registered_eq, Broker.add_dealer,
      time_add_ms, hr, ha, hs]

/-- One iteration of the receive loop of `Broker::get_registration` on a frame
that is not final. -/
theorem registration_frame_routing (HEARTBEAT_INTERVAL : Nat) (b : Broker)
    (l : Broker.reg_locals) (out : List Effect) (f : Broker.recv_t) (hm : ¬ f.more = 0) :
    Broker.registration_frame HEARTBEAT_INTERVAL (b, l, out) f =
      some (b, l,
        if f.more = 1 then out ++ [Effect.send socket_t.reg f.message true] else out) := by
  simp [Broker.registration_frame, hm]

/-- One iteration of the receive loop of `Broker::get_registration`, on a frame
that is not wrongly cast, returns and keeps the broker aligned, whatever the
database answers and whatever the flags left by earlier iterations. -/
theorem registration_frame_aligned (HEARTBEAT_INTERVAL : Nat) (b : Broker)
    (l : Broker.reg_locals) (out : List Effect) (f : Broker.recv_t)
    (hb : Broker.aligned b)
    (hf : f.more = 0 → (as_registration f.message).isSome = true) :
    ∃ b1 l1 out1,
      Broker.registration_frame HEARTBEAT_INTERVAL (b, l, out) f = some (b1, l1, out1)
        ∧ Broker.aligned b1 := by
  obtain ⟨hnd, hd, ht, hi⟩ := hb
  by_cases hm : f.more = 0
  · obtain ⟨rm, hrm⟩ := Option.isSome_iff_exists.mp (hf hm)
    refine ⟨_, _, _, registration_frame_data HEARTBEAT_INTERVAL b l out f rm hm hrm, ?_⟩
    by_cases hc : f.db_ready = true ∧ l.already_registered = false ∧
        rm.service ∉ b.available_services
    · rw [if_pos hc]
      refine ⟨?_, ?_, ?_, ?_⟩
      · simp only []
        rw [List.nodup_append]
        refine ⟨hnd, List.nodup_singleton _, ?_⟩
        intro x hx hx1
        rw [List.mem_singleton] at hx1
        subst hx1
        exact hc.2.2 hx
      · simp [hd]
      · simp [ht]
      · simp [hi, Nat.add_assoc]
    · rw [if_neg hc]
      exact ⟨hnd, hd, ht, hi⟩
  · exact ⟨_, _, _, registration_frame_routing HEARTBEAT_INTERVAL b l out f hm,
      hnd, hd, ht, hi⟩

/-- The receive loop of `Broker::get_registration`, on frames that are not
wrongly cast, returns and keeps the broker aligned. -/
theorem registration_loop_aligned (HEARTBEAT_INTERVAL : Nat) (frames : List Broker.recv_t) :
    ∀ (b : Broker) (l : Broker.reg_locals) (out : List Effect), Broker.aligned b →
      (∀ f ∈ frames, f.more = 0 → (as_registration f.message).isSome = true) →
      ∃ b1 l1 out1,
        Broker.registration_loop HEARTBEAT_INTERVAL (b, l, out) frames = some (b1, l1, out1)
          ∧ Broker.aligned b1 := by
  induction frames with
  | nil =>
    intro b l out hb _
    exact ⟨b, l, out, rfl, hb⟩
  | cons f fs ih =>
    intro b l out hb hf
    obtain ⟨b1, l1, out1, h1, hb1⟩ :=
      registration_frame_aligned HEARTBEAT_INTERVAL b l out f hb (hf f (List.mem_cons_self _ _))
    obtain ⟨b2, l2, out2, h2, hb2⟩ :=
      ih b1 l1 out1 hb1 (fun g hg => hf g (List.mem_cons_of_mem _ hg))
    refine ⟨b2, l2, out2, ?_, hb2⟩
    simp only [Broker.registration_loop, h1]
    exact h2

/-- A call of `Broker::get_registration` on decodable frames returns and keeps
the broker aligned, whatever the database answers. -/
theorem get_registration_decodable (HEARTBEAT_INTERVAL : Nat) (b : Broker)
    (frames : List Broker.recv_t) (hb : Broker.aligned b) (hdec : Broker.decodable frames) :
    ∃ b1 out, Broker.get_registration HEARTBEAT_INTERVAL b frames = some (b1, out)
      ∧ Broker.aligned b1 := by
  obtain ⟨b1, l1, out1, h1, hb1⟩ :=
    registration_loop_aligned HEARTBEAT_INTERVAL frames b
      { already_registered := false, ready := false } [] hb hdec.2
  refine ⟨b1, out1, ?_, hb1⟩
  have hlen : ¬ frames.length ≠ ENVELOPE := fun h => h hdec.1
  simp only [Broker.get_registration, hlen, h1, if_false]

/-- A sequence of calls of `Broker::get_registration` on decodable frames
returns and keeps the broker aligned. -/
theorem registrations_decodable (HEARTBEAT_INTERVAL : Nat) (calls : List (List Broker.recv_t)) :
    ∀ b : Broker, Broker.aligned b → (∀ frames ∈ calls, Broker.decodable frames) →
      ∃ b1, Broker.registrations HEARTBEAT_INTERVAL b calls = some b1 ∧ Broker.aligned b1 := by
  induction calls with
  | nil =>
    intro b hb _
    exact ⟨b, rfl, hb⟩
  | cons frames rest ih =>
    intro b hb hdec
    obtain ⟨b1, out, h1, hb1⟩ :=
      get_registration_decodable HEARTBEAT_INTERVAL b frames hb
        (hdec frames (List.mem_cons_self _ _))
    obtain ⟨b2, h2, hb2⟩ := ih b1 hb1 (fun fr hfr => hdec fr (List.mem_cons_of_mem _ hfr))
    refine ⟨b2, ?_, hb2⟩
    simp only [Broker.registrations, h1]
    exact h2

/-- An index inside a vector holds an element. -/
theorem getElem?_some_of_lt {α : Type} (l : List α) (i : Nat) (h : i < l.length) :
    ∃ x, l[i]? = some x ∧ x ∈ l :=
  ⟨l[i], List.getElem?_eq_getElem h, List.getElem_mem h⟩

/-- The search loop of `Broker::update_timeout` stops inside the vector when
the service is listed. -/
theorem service_index_lt (services : List service_type_t) (service : service_type_t)
    (h : service ∈ services) : Broker.service_index services service < services.length := by
  induction services with
  | nil => cases h
  | cons x xs ih =>
    by_cases hx : x = service
    · simp [Broker.service_index, hx]
    · have hmem : service ∈ xs := by
        rcases List.mem_cons.mp h with h1 | h1
        · exact absurd h1.symm hx
        · exact h1
      simp [Broker.service_index, hx, ih hmem]

/-- For a listed service, `Broker::update_timeout` stays inside `timeout` and
keeps the broker aligned. -/
theorem update_timeout_aligned (HEARTBEAT_INTERVAL : Nat) (b : Broker)
    (service : service_type_t) (clock : timespec) (hb : Broker.aligned b)
    (h : service ∈ b.available_services) :
    ∃ b1, Broker.update_timeout HEARTBEAT_INTERVAL b service clock = some b1
      ∧ Broker.aligned b1 ∧ b1.timeout.length = b.timeout.length := by
  obtain ⟨hnd, hd, ht, hi⟩ := hb
  have hlt : Broker.service_index b.available_services service < b.timeout.length := by
    rw [ht]
    exact service_index_lt _ _ h
  simp only [Broker.update_timeout, hlt, if_true]
  refine ⟨_, rfl, ?_, ?_⟩
  · exact ⟨hnd, hd, by simp [ht], hi⟩
  · simp

/-- The sending loop of `Broker::ping_server` stays inside `dealer`. -/
theorem ping_forward_some (b : Broker) (i : Nat) (buffer_in : List message_t) (j : Nat)
    (h : i < b.dealer.length) : ∃ out, Broker.ping_forward b i buffer_in j = some out := by
  obtain ⟨skt, hskt, _⟩ := getElem?_some_of_lt b.dealer i h
  induction j with
  | zero => exact ⟨[], rfl⟩
  | succ k ih =>
    obtain ⟨rest, hrest⟩ := ih
    refine ⟨Effect.send_multi_msg skt buffer_in :: rest, ?_⟩
    simp [Broker.ping_forward, hskt, hrest]

/-- In an aligned broker `Broker::ping_server` stays inside the vectors for
every index below the number of listed services. -/
theorem ping_server_some (LENGTH_ID_FRAME : Nat) (b : Broker) (i : Nat)
    (service : service_type_t) (env : Broker.ping_env) (hb : Broker.aligned b)
    (h : i < b.available_services.length) :
    ∃ out, Broker.ping_server LENGTH_ID_FRAME b i service env = some out := by
  obtain ⟨listed, hlisted, _⟩ := getElem?_some_of_lt b.available_services i h
  obtain ⟨sent, hsent⟩ := ping_forward_some b i
    [message_t.raw (0 :: List.replicate (LENGTH_ID_FRAME - 1) 97), message_t.raw [],
     message_t.service { env.sm with heartbeat := true, seq_id := env.ping_id }]
    env.reliable_copies (by rw [hb.2.1]; exact h)
  simp [Broker.ping_server, hlisted, hsent]

/-- The dealer loop of `Broker::step` stays inside the poll set when the poll
set has an item for each of its indices. -/
theorem dealer_from_some (b : Broker) (pollin : Nat → Bool) (n : Nat) :
    ∀ i, i + n + DEALER_POLL_INDEX ≤ b.items.length →
      ∃ out, Broker.dealer_from b pollin n i = some out := by
  induction n with
  | zero =>
    intro i _
    exact ⟨[], rfl⟩
  | succ k ih =>
    intro i h
    obtain ⟨item, hitem, _⟩ := getElem?_some_of_lt b.items (i + DEALER_POLL_INDEX) (by omega)
    obtain ⟨out, hout⟩ := ih (i + 1) (by omega)
    by_cases hp : pollin (i + DEALER_POLL_INDEX) = true
    · refine ⟨Broker.step_effect.get_response i :: out, ?_⟩
      simp [Broker.dealer_from, hitem, hout, hp]
    · refine ⟨out, ?_⟩
      simp [Broker.dealer_from, hitem, hout, hp]

/-- The heartbeat loop of `Broker::step` stays inside the vectors of an aligned
broker and leaves it aligned. -/
theorem heartbeat_from_some (HEARTBEAT_INTERVAL LENGTH_ID_FRAME : Nat) (now : timespec)
    (env : Nat → Broker.ping_env) (n : Nat) :
    ∀ (i : Nat) (b : Broker), Broker.aligned b → i + n ≤ b.timeout.length →
      ∃ b1 out,
        Broker.heartbeat_from HEARTBEAT_INTERVAL LENGTH_ID_FRAME now env n i b = some (b1, out)
          ∧ Broker.aligned b1 := by
  induction n with
  | zero =>
    intro i b hb _
    exact ⟨b, [], rfl, hb⟩
  | succ k ih =>
    intro i b hb h
    have hi : i < b.timeout.length := by omega
    have his : i < b.available_services.length := by rw [← hb.2.2.1]; exact hi
    obtain ⟨t, ht, _⟩ := getElem?_some_of_lt b.timeout i hi
    by_cases hcmp : time_cmp now t = 1
    · obtain ⟨service, hservice, hmem⟩ := getElem?_some_of_lt b.available_services i his
      have hi8 : i % 2 ^ 8 < b.available_services.length :=
        lt_of_le_of_lt (Nat.mod_le _ _) his
      obtain ⟨sent, hsent⟩ :=
        ping_server_some LENGTH_ID_FRAME b (i % 2 ^ 8) service (env i) hb hi8
      obtain ⟨b1, hb1, hal1, hlen1⟩ :=
        update_timeout_aligned HEARTBEAT_INTERVAL b service (env i).clock hb hmem
      obtain ⟨b2, out, h2, hal2⟩ := ih (i + 1) b1 hal1 (by rw [hlen1]; omega)
      have hsent2 :
          Broker.ping_server LENGTH_ID_FRAME b (i % 256) service (env i) = some sent := hsent
      refine ⟨b2, [Broker.step_effect.check_pong service] ++ sent ++ out, ?_, hal2⟩
      simp [Broker.heartbeat_from, ht, hcmp, hservice, hsent2, hb1, h2]
    · obtain ⟨b2, out, h2, hal2⟩ := ih (i + 1) b hb (by omega)
      refine ⟨b2, out, ?_, hal2⟩
      simp [Broker.heartbeat_from, ht, hcmp, h2]

/-- C12: the constructed broker is aligned, and after any sequence of calls of
`Broker::get_registration` (frames that are not wrongly cast, any answers of
the database) every call has returned and the broker is aligned:
`available_services` has no duplicate, `dealer` and `timeout` have its length
and `items` has that length plus `DEALER_POLL_INDEX`.  Hence `items[i + 3]`
exists for every index of the dealer loop of `Broker::step`, `timeout[i]`,
`available_services[i]` and `dealer[i]` exist for every index of its heartbeat
loop, and both loops run to their end without leaving a vector, the heartbeat
loop leaving the broker aligned. -/
theorem C12_index_alignment (HEARTBEAT_INTERVAL DEALER_START_PORT LENGTH_ID_FRAME : Nat)
    (nmr port_router port_reg : Nat) (calls : List (List Broker.recv_t))
    (hdec : ∀ frames ∈ calls, Broker.decodable frames) :
    Broker.aligned (Broker.ctor DEALER_START_PORT nmr port_router port_reg)
    ∧ ∃ b, Broker.registrations HEARTBEAT_INTERVAL
          (Broker.ctor DEALER_START_PORT nmr port_router port_reg) calls = some b
      ∧ (b.available_services.Nodup
          ∧ b.dealer.length = b.available_services.length
          ∧ b.timeout.length = b.available_services.length
          ∧ b.items.length = DEALER_POLL_INDEX + b.available_services.length)
      ∧ (∀ i, i < b.dealer.length → (b.items[i + DEALER_POLL_INDEX]?).isSome = true)
      ∧ (∀ i, i < b.timeout.length →
          (b.timeout[i]?).isSome = true ∧ (b.available_services[i]?).isSome = true
            ∧ (b.dealer[i]?).isSome = true)
      ∧ (∀ pollin, ∃ out, Broker.dealer_loop b pollin = some out)
      ∧ (∀ now env, ∃ b1 out,
          Broker.heartbeat_loop HEARTBEAT_INTERVAL LENGTH_ID_FRAME now env b = some (b1, out)
            ∧ Broker.aligned b1) := by
  have h0 : Broker.aligned (Broker.ctor DEALER_START_PORT nmr port_router port_reg) := by
    simp [Broker.aligned, Broker.ctor, DEALER_POLL_INDEX]
  obtain ⟨b, hrun, hb⟩ := registrations_decodable HEARTBEAT_INTERVAL calls _ h0 hdec
  obtain ⟨hnd, hd, ht, hi⟩ := hb
  refine ⟨h0, b, hrun, ⟨hnd, hd, ht, hi⟩, ?_, ?_, ?_, ?_⟩
  · intro i hlt
    obtain ⟨x, hx, _⟩ := getElem?_some_of_lt b.items (i + DEALER_POLL_INDEX) (by omega)
    rw [hx]
    rfl
  · intro i hlt
    obtain ⟨x, hx, _⟩ := getElem?_some_of_lt b.timeout i hlt
    obtain ⟨y, hy, _⟩ := getElem?_some_of_lt b.available_services i (by omega)
    obtain ⟨z, hz, _⟩ := getElem?_some_of_lt b.dealer i (by omega)
    rw [hx, hy, hz]
    exact ⟨rfl, rfl, rfl⟩
  · intro pollin
    exact dealer_from_some b pollin b.dealer.length 0 (by omega)
  · intro now env
    exact heartbeat_from_some HEARTBEAT_INTERVAL LENGTH_ID_FRAME now env b.timeout.length 0 b
      ⟨hnd, hd, ht, hi⟩ (by omega)

/-- C12 at three calls: a registration that completes service 7, a call whose
three frames hold two registration modules (service 7 again, then service 8,
both reported ready), and a repeated registration for service 8. -/
theorem C12_index_alignment_witness :
    (∀ frames ∈
        [[(⟨message_t.raw [0, 1, 0, 0, 0], 1, 0, false, 0, 0⟩ : Broker.recv_t),
          ⟨message_t.raw [], 1, 0, false, 0, 0⟩,
          ⟨message_t.registration ⟨[65], 7⟩, 0, 6000, true, 6001, 10⟩],
         [⟨message_t.registration ⟨[66], 7⟩, 0, 6001, true, 6002, 20⟩,
          ⟨message_t.raw [0, 2, 0, 0, 0], 1, 0, false, 0, 0⟩,
          ⟨message_t.registration ⟨[67], 8⟩, 0, 6001, true, 6002, 30⟩],
         [⟨message_t.raw [0, 3, 0, 0, 0], 1, 0, false, 0, 0⟩,
          ⟨message_t.raw [], 1, 0, false, 0, 0⟩,
          ⟨message_t.registration ⟨[68], 8⟩, 0, 6001, true, 6002, 40⟩]],
      Broker.decodable frames)
    ∧ ∃ b, Broker.registrations 1000 (Broker.ctor 6000 3 5000 5001)
        [[(⟨message_t.raw [0, 1, 0, 0, 0], 1, 0, false, 0, 0⟩ : Broker.recv_t),
          ⟨message_t.raw [], 1, 0, false, 0, 0⟩,
          ⟨message_t.registration ⟨[65], 7⟩, 0, 6000, true, 6001, 10⟩],
         [⟨message_t.registration ⟨[66], 7⟩, 0, 6001, true, 6002, 20⟩,
          ⟨message_t.raw [0, 2, 0, 0, 0], 1, 0, false, 0, 0⟩,
          ⟨message_t.registration ⟨[67], 8⟩, 0, 6001, true, 6002, 30⟩],
         [⟨message_t.raw [0, 3, 0, 0, 0], 1, 0, false, 0, 0⟩,
          ⟨message_t.raw [], 1, 0, false, 0, 0⟩,
          ⟨message_t.registration ⟨[68], 8⟩, 0, 6001, true, 6002, 40⟩]] = some b
      ∧ (b.available_services.Nodup
          ∧ b.dealer.length = b.available_services.length
          ∧ b.timeout.length = b.available_services.length
          ∧ b.items.length = DEALER_POLL_INDEX + b.available_services.length) :=
  have hdec : ∀ frames ∈
        [[(⟨message_t.raw [0, 1, 0, 0, 0], 1, 0, false, 0, 0⟩ : Broker.recv_t),
          ⟨message_t.raw [], 1, 0, false, 0, 0⟩,
          ⟨message_t.registration ⟨[65], 7⟩, 0, 6000, true, 6001, 10⟩],
         [⟨message_t.registration ⟨[66], 7⟩, 0, 6001, true, 6002, 20⟩,
          ⟨message_t.raw [0, 2, 0, 0, 0], 1, 0, false, 0, 0⟩,
          ⟨message_t.registration ⟨[67], 8⟩, 0, 6001, true, 6002, 30⟩],
         [⟨message_t.raw [0, 3, 0, 0, 0], 1, 0, false, 0, 0⟩,
          ⟨message_t.raw [], 1, 0, false, 0, 0⟩,
          ⟨message_t.registration ⟨[68], 8⟩, 0, 6001, true, 6002, 40⟩]],
      Broker.decodable frames := by decide
  ⟨hdec,
   (C12_index_alignment 1000 6000 5 3 5000 5001 _ hdec).2.imp
     (fun _ h => ⟨h.1, h.2.1⟩)⟩

end CBSD
